import Mathlib

/-!
Verification of the facebook-scraper HTTP API core
(`src/facebook_scraper/api.py`): request validation, target
disambiguation, option extraction, bounded collection, routing and
error classification, embedded shallowly in Lean.
-/

set_option maxHeartbeats 1000000

/-- A Python float as produced by `json.loads` on a non-integer JSON
number: a finite value `mantissa / 10 ^ scale` (an exact-decimal
idealization of the IEEE double the parser would build), or the
`Infinity`, `-Infinity` and `NaN` literals, which `json.loads` accepts
by default. -/
inductive PyFloat where
  | finite (mantissa : Int) (scale : Nat)
  | infinity (neg : Bool)
  | nan

/-- JSON values as produced by `json.loads`: `null`, booleans, integer
numbers, float numbers, strings, arrays, and objects as association
lists in insertion order with distinct keys, as Python dicts. -/
inductive Json where
  | null
  | bool (b : Bool)
  | int (n : Int)
  | float (f : PyFloat)
  | str (s : String)
  | arr (elems : List Json)
  | obj (fields : List (String × Json))

/-- Model of `APIError(status_code, detail)` — the structured error raised by the
validation pipeline (`class APIError` in api.py). -/
structure APIError where
  status_code : Nat
  detail : String

/-- An error escaping a validation helper: either a deliberately raised
`APIError`, or an exception the helper does not catch (such as the
`OverflowError` from `int()` on a float infinity), which propagates to
the boundary handler. -/
inductive PyErr where
  | api (e : APIError)
  | uncaught (msg : String)

/-- Lookup `payload.get(k)` keeping absence visible: `some v` when the key is in
the dict, `none` otherwise. -/
def dictGet? (payload : List (String × Json)) (k : String) : Option Json :=
  (payload.find? (fun p => p.1 == k)).map (fun p => p.2)

/-- Python `payload.get(k)`: `None` (here `Json.null`) when absent. -/
def dictGet (payload : List (String × Json)) (k : String) : Json :=
  (dictGet? payload k).getD Json.null

/-- Python `payload.get(k, default)`. -/
def dictGetD (payload : List (String × Json)) (k : String) (d : Json) : Json :=
  (dictGet? payload k).getD d

/-- Python `k in payload`. -/
def hasKey (payload : List (String × Json)) (k : String) : Bool :=
  (dictGet? payload k).isSome

def DEFAULT_LIMIT : Int := 10
def MAX_LIMIT : Int := 100

/-- No two adjacent underscores in a digit group (Python int-literal rule). -/
def noAdjacentUnderscores : List Char → Bool
  | c1 :: c2 :: rest =>
    !(c1 == '_' && c2 == '_') && noAdjacentUnderscores (c2 :: rest)
  | _ => true

/-- A valid Python decimal digit group: nonempty, starts and ends with a
digit, only digits and single separating underscores inside. -/
def pyDigitsOk (cs : List Char) : Bool :=
  match cs with
  | [] => false
  | c :: _ =>
    c.isDigit && (cs.getLastD 'x').isDigit
      && cs.all (fun d => d.isDigit || d == '_')
      && noAdjacentUnderscores cs

/-- Numeric value of a digit group, skipping underscores. -/
def digitsValue (cs : List Char) : Nat :=
  cs.foldl (fun acc c => if c.isDigit then acc * 10 + (c.toNat - 48) else acc) 0

/-- ASCII whitespace stripped by Python `str.strip()`. -/
def pySpace (c : Char) : Bool :=
  c == ' ' || c == '\t' || c == '\n' || c == '\r' || c == '\x0b' || c == '\x0c'

/-- Python `s.strip()` over the character list. -/
def pyStrip (cs : List Char) : List Char :=
  ((cs.dropWhile pySpace).reverse.dropWhile pySpace).reverse

/-- Python `int(s)` on a string: strip whitespace, optional sign, decimal
digits with optional single underscores. -/
def pyIntOfString (s : String) : Option Int :=
  let cs := pyStrip s.data
  match cs with
  | '-' :: rest => if pyDigitsOk rest then some (-(digitsValue rest : Int)) else none
  | '+' :: rest => if pyDigitsOk rest then some ((digitsValue rest : Int)) else none
  | _ => if pyDigitsOk cs then some ((digitsValue cs : Int)) else none

/-- Outcome of Python `int(value)`: the integer, or a raised
`TypeError`/`ValueError` (both caught by `_coerce_int`), or the
`OverflowError` raised on a float infinity (which `_coerce_int` does
not catch). -/
inductive PyIntResult where
  | ok (n : Int)
  | valueError
  | overflowError

/-- Python `int(value)` on a JSON value: ints and bools
(`int(True) == 1`) pass through, finite floats truncate toward zero
(`int(10.5) == 10`), integer-shaped strings parse; a float infinity
raises `OverflowError`, `NaN` raises `ValueError`, and every other
value raises `TypeError`. -/
def pyToInt : Json → PyIntResult
  | .int n => .ok n
  | .bool b => .ok (if b then 1 else 0)
  | .float (.finite m s) => .ok (Int.tdiv m ((10 : Int) ^ s))
  | .float (.infinity _) => .overflowError
  | .float .nan => .valueError
  | .str s =>
    match pyIntOfString s with
    | some n => .ok n
    | none => .valueError
  | _ => .valueError

/-- Test `isinstance(value, bool)`. -/
def isBool : Json → Bool
  | .bool _ => true
  | _ => false

/-- Model of `_coerce_int(value, field, *, minimum, maximum)` from api.py:
bools are rejected up front, then `int(value)` is attempted —
`TypeError`/`ValueError` are caught and turned into the 400, while the
`OverflowError` from a float infinity is not caught and propagates —
then the bounds are checked on the coerced integer. -/
def coerce_int (value : Json) (field : String) (minimum : Int)
    (maximum : Option Int) : Except PyErr Int :=
  if isBool value then .error (.api ⟨400, field ++ " must be an integer"⟩)
  else
    match pyToInt value with
    | .valueError => .error (.api ⟨400, field ++ " must be an integer"⟩)
    | .overflowError =>
      .error (.uncaught "OverflowError: cannot convert float infinity to integer")
    | .ok value_int =>
      if value_int < minimum then
        .error (.api ⟨400, field ++ " must be >= " ++ toString minimum⟩)
      else
        match maximum with
        | some mx =>
          if mx < value_int then
            .error (.api ⟨400, field ++ " must be <= " ++ toString mx⟩)
          else .ok value_int
        | none => .ok value_int

/-- The membership test `value not in (None, "", [])` from
`_extract_target`: under Python `==`, a JSON value equals one of the
three sentinels exactly when it is structurally `null`, `""` or `[]`;
no other JSON value compares equal to any of them. -/
def present : Json → Bool
  | .null => false
  | .str s => !(s == "")
  | .arr xs => !xs.isEmpty
  | _ => true

/-- The `candidates` list built by `_extract_target`: the target fields,
in their fixed order, whose value counts as present. -/
def target_candidates (payload : List (String × Json)) : List (String × Json) :=
  (["account", "group", "post_urls", "hashtag"]).filterMap fun field =>
    let value := dictGet payload field
    if present value then some (field, value) else none

/-- Model of `_extract_target(payload)` from api.py. -/
def extract_target (payload : List (String × Json)) :
    Except APIError (String × Json) :=
  match target_candidates payload with
  | [(field, value)] =>
    if field == "post_urls" then
      match value with
      | .arr (_ :: _) => .ok (field, value)
      | _ => .error ⟨400, "post_urls must be a non-empty list of URLs"⟩
    else .ok (field, value)
  | _ => .error ⟨400, "Exactly one of account, group, post_urls, or hashtag is required"⟩

/-- Python truthiness `bool(f)` of a float: only `0.0` is falsy
(`Infinity` and `NaN` are truthy). -/
def pyFloatTruthy : PyFloat → Bool
  | .finite m _ => m != 0
  | .infinity _ => true
  | .nan => true

/-- Python truthiness `bool(value)` on a JSON value. -/
def pyTruthy : Json → Bool
  | .null => false
  | .bool b => b
  | .int n => n != 0
  | .float f => pyFloatTruthy f
  | .str s => s != ""
  | .arr xs => !xs.isEmpty
  | .obj fs => !fs.isEmpty

/-- One turn of the `for key in ("pages", "page_limit", "timeout")` loop
in `_extract_request_kwargs`: the kwargs entry contributed by `key`. -/
def int_kwarg (payload : List (String × Json)) (key : String) :
    Except PyErr (List (String × Json)) :=
  match dictGet? payload key with
  | none => .ok []
  | some v =>
    match coerce_int v key 1 none with
    | .error e => .error e
    | .ok n => .ok [(key, Json.int n)]

/-- The `options` handling in `_extract_request_kwargs`:
`payload.get("options")`, skipped when `None`, must be a dict, passed
through unchanged. -/
def options_kwarg (payload : List (String × Json)) :
    Except PyErr (List (String × Json)) :=
  match dictGet payload "options" with
  | .null => .ok []
  | .obj fs => .ok [("options", Json.obj fs)]
  | _ => .error (.api ⟨400, "options must be an object"⟩)

/-- The `cookies` handling in `_extract_request_kwargs`:
`payload.get("cookies")`, skipped when `None`, must be a dict or a
string. -/
def cookies_kwarg (payload : List (String × Json)) :
    Except PyErr (List (String × Json)) :=
  match dictGet payload "cookies" with
  | .null => .ok []
  | .str s => .ok [("cookies", Json.str s)]
  | .obj fs => .ok [("cookies", Json.obj fs)]
  | _ => .error (.api ⟨400, "cookies must be a string path or name/value mapping"⟩)

/-- One turn of the `for boolean_key in ("extra_info", "youtube_dl")`
loop: `bool(payload[key])` when the key is present. -/
def bool_kwarg (payload : List (String × Json)) (key : String) :
    List (String × Json) :=
  match dictGet? payload key with
  | none => []
  | some v => [(key, Json.bool (pyTruthy v))]

/-- Model of `_extract_request_kwargs(payload)` from api.py, with the two source
loops unrolled over their literal key tuples; the resulting kwargs dict
is the concatenation of the per-key entries in insertion order. -/
def extract_request_kwargs (payload : List (String × Json)) :
    Except PyErr (List (String × Json)) :=
  match int_kwarg payload "pages" with
  | .error e => .error e
  | .ok k1 =>
    match int_kwarg payload "page_limit" with
    | .error e => .error e
    | .ok k2 =>
      match int_kwarg payload "timeout" with
      | .error e => .error e
      | .ok k3 =>
        match options_kwarg payload with
        | .error e => .error e
        | .ok k4 =>
          match cookies_kwarg payload with
          | .error e => .error e
          | .ok k5 =>
            .ok (k1 ++ k2 ++ k3 ++ k4 ++ k5
              ++ bool_kwarg payload "extra_info" ++ bool_kwarg payload "youtube_dl")

/-- The collection loop of `_collect_posts`: append each produced post to
`results` and break as soon as `len(results) >= limit`; the part of the
source sequence after the break is never consumed. -/
def collect_loop (limit : Int) (results : List Json) : List Json → List Json
  | [] => results
  | post :: rest =>
    if limit ≤ ((results ++ [post]).length : Int) then results ++ [post]
    else collect_loop limit (results ++ [post]) rest

/-- Materialize at most `limit` posts from the produced sequence
(the loop of `_collect_posts` started from an empty buffer). -/
def collect_from (seq : List Json) (limit : Int) : List Json :=
  collect_loop limit [] seq

/-- Outcome of calling the external capability `get_posts(**target, **kwargs)`
and iterating the returned generator: it either yields a (finite prefix
of a) sequence of posts, raises the distinguished
`exceptions.InvalidCookies`, or raises some other exception. -/
inductive CapOutcome where
  | yields (posts : List Json)
  | invalidCookies (msg : String)
  | raises (msg : String)

/-- The external post-producing capability, keyed by the resolved target
field, its value, and the extracted request kwargs. -/
def Capability : Type :=
  String → Json → List (String × Json) → CapOutcome

/-- Failures that can escape `_collect_posts`: an `APIError` from
validation, `exceptions.InvalidCookies` from the capability, or any
other exception. -/
inductive PostsError where
  | api (e : APIError)
  | invalidCookies (msg : String)
  | unexpected (msg : String)

/-- Model of `_collect_posts(payload)` from api.py: resolve the target, extract
kwargs, coerce `payload.get("limit", DEFAULT_LIMIT)` into `[1, MAX_LIMIT]`,
invoke the capability and materialize at most `limit` posts. -/
def collect_posts (cap : Capability) (payload : List (String × Json)) :
    Except PostsError (List Json) :=
  match extract_target payload with
  | .error e => .error (.api e)
  | .ok (target_field, target_value) =>
    match extract_request_kwargs payload with
    | .error (.api e) => .error (.api e)
    | .error (.uncaught msg) => .error (.unexpected msg)
    | .ok request_kwargs =>
      match coerce_int (dictGetD payload "limit" (Json.int DEFAULT_LIMIT))
          "limit" 1 (some MAX_LIMIT) with
      | .error (.api e) => .error (.api e)
      | .error (.uncaught msg) => .error (.unexpected msg)
      | .ok limit =>
        match cap target_field target_value request_kwargs with
        | .yields seq => .ok (collect_from seq limit)
        | .invalidCookies msg => .error (.invalidCookies msg)
        | .raises msg => .error (.unexpected msg)

/-- The request body of a `POST /posts` call, abstracted by the outcome
of reading and `json.loads`-decoding it in `_load_json_body`: the raw
bytes were empty, or not valid JSON (with the decoder's error message),
or decoded to a JSON value. -/
inductive Body where
  | empty
  | malformed (msg : String)
  | value (j : Json)

/-- Model of `_load_json_body(environ)` from api.py, over the decoded body. -/
def load_json_body : Body → Except APIError (List (String × Json))
  | .empty => .error ⟨400, "Request body is required"⟩
  | .malformed msg => .error ⟨400, "Invalid JSON payload: " ++ msg⟩
  | .value (.obj fields) => .ok fields
  | .value _ => .error ⟨400, "JSON payload must be an object"⟩

/-- Whether `needle` starts `hay`. -/
def charsPrefix : List Char → List Char → Bool
  | [], _ => true
  | _ :: _, [] => false
  | a :: as, b :: bs => a == b && charsPrefix as bs

/-- Whether `needle` occurs somewhere in `hay` (Python `in` on strings). -/
def charsContain (needle : List Char) : List Char → Bool
  | [] => needle.isEmpty
  | c :: rest => charsPrefix needle (c :: rest) || charsContain needle rest

/-- ASCII lowercasing of `content_type.lower()` (media types are ASCII). -/
def lowerChars (s : String) : List Char :=
  s.data.map Char.toLower

/-- Model of `_is_json(content_type)` from api.py: false on a missing or empty
header, else a case-insensitive substring test for `application/json`. -/
def is_json (content_type : Option String) : Bool :=
  match content_type with
  | none => false
  | some ct =>
    if ct == "" then false
    else charsContain ("application/json".data) (lowerChars ct)

/-- Hexadecimal digit characters as used by `json.dumps` escapes. -/
def hexDigit (n : Nat) : Char :=
  if n < 10 then Char.ofNat (48 + n) else Char.ofNat (87 + n % 16)

/-- Four lowercase hex digits. -/
def hex4 (n : Nat) : String :=
  String.mk [hexDigit (n / 4096 % 16), hexDigit (n / 256 % 16),
    hexDigit (n / 16 % 16), hexDigit (n % 16)]

/-- The per-character escaping of Python `json.dumps` with its default
`ensure_ascii=True`: printable ASCII other than `"` and `\` is kept,
the short escapes are used for the common controls, every other
character becomes `\uXXXX` (a surrogate pair above U+FFFF). -/
def escapeChar (c : Char) : String :=
  if c = '"' then "\\\""
  else if c = '\\' then "\\\\"
  else if c = '\n' then "\\n"
  else if c = '\r' then "\\r"
  else if c = '\t' then "\\t"
  else if c = '\x08' then "\\b"
  else if c = '\x0c' then "\\f"
  else if 0x20 ≤ c.toNat && c.toNat ≤ 0x7e then String.mk [c]
  else if c.toNat < 0x10000 then "\\u" ++ hex4 c.toNat
  else
    "\\u" ++ hex4 (0xd800 + (c.toNat - 0x10000) / 0x400)
      ++ "\\u" ++ hex4 (0xdc00 + (c.toNat - 0x10000) % 0x400)

/-- A JSON string literal as serialized by `json.dumps`. -/
def dumpsString (s : String) : String :=
  "\"" ++ String.join (s.data.map escapeChar) ++ "\""

/-- Decimal rendering of a finite float `mantissa / 10 ^ scale`: the
digit string of the mantissa with a decimal point inserted `scale`
places from the right (zero-padded as needed), `".0"` appended when the
scale is zero — the exact-decimal idealization of Python `repr(float)`,
which `json.dumps` writes for float values. -/
def floatDecimalRepr (mantissa : Int) (scale : Nat) : String :=
  let sign := if mantissa < 0 then "-" else ""
  let ds := (toString mantissa.natAbs).data
  if scale = 0 then sign ++ String.mk ds ++ ".0"
  else
    let padded := if ds.length ≤ scale
      then List.replicate (scale + 1 - ds.length) '0' ++ ds
      else ds
    sign ++ String.mk (padded.take (padded.length - scale)) ++ "."
      ++ String.mk (padded.drop (padded.length - scale))

/-- Serialization of a float by `json.dumps` (default `allow_nan=True`):
finite values as their decimal repr, and the literals `Infinity`,
`-Infinity`, `NaN`. -/
def pyFloatRepr : PyFloat → String
  | .finite m s => floatDecimalRepr m s
  | .infinity false => "Infinity"
  | .infinity true => "-Infinity"
  | .nan => "NaN"

mutual

/-- Python `json.dumps(value)` with its default separators and
`ensure_ascii=True`; the output is pure ASCII. -/
def dumps : Json → String
  | .null => "null"
  | .bool true => "true"
  | .bool false => "false"
  | .int n => toString n
  | .float f => pyFloatRepr f
  | .str s => dumpsString s
  | .arr xs => "[" ++ dumpsElems xs ++ "]"
  | .obj fs => "\x7b" ++ dumpsFields fs ++ "\x7d"

/-- Array elements joined by `", "`. -/
def dumpsElems : List Json → String
  | [] => ""
  | [x] => dumps x
  | x :: y :: rest => dumps x ++ ", " ++ dumpsElems (y :: rest)

/-- Object members `key: value` joined by `", "`. -/
def dumpsFields : List (String × Json) → String
  | [] => ""
  | [kv] => dumpsString kv.1 ++ ": " ++ dumps kv.2
  | kv :: kv2 :: rest => dumpsString kv.1 ++ ": " ++ dumps kv.2 ++ ", " ++ dumpsFields (kv2 :: rest)

end

/-- An HTTP response as handed to WSGI `start_response` plus the body
bytes: numeric status, header list in order, and the body (all bodies
emitted by this app are ASCII, so a `String` carries the exact bytes). -/
structure Response where
  status : Nat
  headers : List (String × String)
  body : String

/-- The fixed `CORS_HEADERS` tuple from api.py. -/
def CORS_HEADERS : List (String × String) :=
  [("Access-Control-Allow-Origin", "*"),
   ("Access-Control-Allow-Methods", "GET,POST,OPTIONS"),
   ("Access-Control-Allow-Headers", "Content-Type")]

/-- Model of `_json_response(start_response, status, payload)` from api.py:
serialize the payload, set content type, the byte length of the body,
and the CORS headers. -/
def json_response (status : Nat) (payload : Json) : Response :=
  let body := dumps payload
  ⟨status,
   [("Content-Type", "application/json; charset=utf-8"),
    ("Content-Length", toString body.utf8ByteSize)] ++ CORS_HEADERS,
   body⟩

/-- Model of `_html_response(start_response, html)` from api.py. -/
def html_response (html : String) : Response :=
  ⟨200,
   [("Content-Type", "text/html; charset=utf-8"),
    ("Content-Length", toString html.utf8ByteSize)],
   html⟩

/-- Model of `_options_response(start_response)` from api.py: 204, the CORS
headers only, body `b""`. -/
def options_response : Response :=
  ⟨204, CORS_HEADERS, ""⟩

/-- The try-block of `_handle_posts`: `_load_json_body` then
`_collect_posts`, every `APIError` funnelled into one failure type. -/
def posts_pipeline (cap : Capability) (body : Body) :
    Except PostsError (List Json) :=
  match load_json_body body with
  | .error e => .error (.api e)
  | .ok payload => collect_posts cap payload

/-- Model of `_handle_posts(environ, start_response)` from api.py: reject
non-JSON content types with 415, then run the pipeline and classify its
outcome — `APIError` keeps its own status and detail,
`exceptions.InvalidCookies` becomes 401 with the raised message, any
other exception becomes 502 with the generic detail (the real cause is
only logged). -/
def handle_posts (cap : Capability) (content_type : Option String)
    (body : Body) : Response :=
  if !is_json content_type then
    json_response 415 (Json.obj [("detail", Json.str "Content-Type must be application/json")])
  else
    match posts_pipeline cap body with
    | .error (.api e) =>
      json_response e.status_code (Json.obj [("detail", Json.str e.detail)])
    | .error (.invalidCookies msg) =>
      json_response 401 (Json.obj [("detail", Json.str msg)])
    | .error (.unexpected _) =>
      json_response 502 (Json.obj [("detail", Json.str "Failed to fetch posts")])
    | .ok posts =>
      json_response 200 (Json.obj [("count", Json.int posts.length), ("posts", Json.arr posts)])

/-- The static `OPENAPI_SPEC` dict from api.py. -/
def OPENAPI_SPEC : Json :=
  Json.obj
    [("openapi", Json.str "3.0.3"),
     ("info", Json.obj
       [("title", Json.str "Facebook Scraper API"),
        ("version", Json.str "1.0.0"),
        ("description", Json.str
          "Expose the existing scraping helpers over HTTP so they can be invoked from hosted environments such as Railway.")]),
     ("paths", Json.obj
       [("/health", Json.obj
         [("get", Json.obj
           [("summary", Json.str "Health check"),
            ("responses", Json.obj
              [("200", Json.obj
                [("description", Json.str "API is ready"),
                 ("content", Json.obj
                   [("application/json", Json.obj
                     [("schema", Json.obj
                       [("type", Json.str "object"),
                        ("properties", Json.obj
                          [("status", Json.obj [("type", Json.str "string")])]),
                        ("required", Json.arr [Json.str "status"])])])])])])])]),
        ("/posts", Json.obj
         [("post", Json.obj
           [("summary", Json.str "Scrape posts from Facebook"),
            ("requestBody", Json.obj
              [("required", Json.bool true),
               ("content", Json.obj
                 [("application/json", Json.obj
                   [("schema", Json.obj
                     [("$ref", Json.str "#/components/schemas/ScrapePostsRequest")])])])]),
            ("responses", Json.obj
              [("200", Json.obj
                [("description", Json.str "Scraped posts"),
                 ("content", Json.obj
                   [("application/json", Json.obj
                     [("schema", Json.obj
                       [("$ref", Json.str "#/components/schemas/ScrapePostsResponse")])])])]),
               ("400", Json.obj [("description", Json.str "Invalid payload")]),
               ("401", Json.obj [("description", Json.str "Invalid cookies")])])])])]),
     ("components", Json.obj
       [("schemas", Json.obj
         [("ScrapePostsRequest", Json.obj
           [("type", Json.str "object"),
            ("properties", Json.obj
              [("account", Json.obj
                [("type", Json.str "string"),
                 ("description", Json.str "Page or profile")]),
               ("group", Json.obj
                [("type", Json.str "string"),
                 ("description", Json.str "Group ID")]),
               ("post_urls", Json.obj
                [("type", Json.str "array"),
                 ("items", Json.obj [("type", Json.str "string")]),
                 ("description", Json.str "Explicit list of post URLs")]),
               ("hashtag", Json.obj
                [("type", Json.str "string"),
                 ("description", Json.str "Hashtag to search")]),
               ("pages", Json.obj
                [("type", Json.str "integer"),
                 ("minimum", Json.int 1),
                 ("description", Json.str "How many paginator pages to visit")]),
               ("page_limit", Json.obj
                [("type", Json.str "integer"),
                 ("minimum", Json.int 1),
                 ("description", Json.str "Legacy alias for pages")]),
               ("timeout", Json.obj
                [("type", Json.str "integer"),
                 ("minimum", Json.int 1),
                 ("description", Json.str "Request timeout in seconds")]),
               ("options", Json.obj
                [("type", Json.str "object"),
                 ("description", Json.str "Options passed through to get_posts")]),
               ("cookies", Json.obj
                [("description", Json.str "Cookie mapping or path to a cookies file"),
                 ("oneOf", Json.arr
                   [Json.obj [("type", Json.str "string")],
                    Json.obj
                      [("type", Json.str "object"),
                       ("additionalProperties", Json.obj [("type", Json.str "string")])]])]),
               ("extra_info", Json.obj [("type", Json.str "boolean")]),
               ("youtube_dl", Json.obj [("type", Json.str "boolean")]),
               ("limit", Json.obj
                [("type", Json.str "integer"),
                 ("minimum", Json.int 1),
                 ("maximum", Json.int MAX_LIMIT),
                 ("default", Json.int DEFAULT_LIMIT),
                 ("description", Json.str "Maximum number of posts to return")])]),
            ("description", Json.str
              "Exactly one of account, group, post_urls, or hashtag must be provided.")]),
          ("ScrapePostsResponse", Json.obj
           [("type", Json.str "object"),
            ("properties", Json.obj
              [("count", Json.obj [("type", Json.str "integer")]),
               ("posts", Json.obj
                 [("type", Json.str "array"),
                  ("items", Json.obj [("type", Json.str "object")])])]),
            ("required", Json.arr [Json.str "count", Json.str "posts"])])])])]

/-- The static `SWAGGER_HTML` page from api.py. -/
def SWAGGER_HTML : String :=
  "<!DOCTYPE html>\n<html lang=\"en\">\n<head>\n    <meta charset=\"utf-8\" />\n    <title>Facebook Scraper API</title>\n    <link rel=\"stylesheet\" href=\"https://cdn.jsdelivr.net/npm/swagger-ui-dist@5/swagger-ui.css\" />\n    <style>body \x7b margin: 0; background: #f7f7f7; \x7d</style>\n</head>\n<body>\n<div id=\"swagger-ui\"></div>\n<script src=\"https://cdn.jsdelivr.net/npm/swagger-ui-dist@5/swagger-ui-bundle.js\"></script>\n<script>\nwindow.onload = () => \x7b\n  SwaggerUIBundle(\x7b url: \x27/openapi.json\x27, dom_id: \x27#swagger-ui\x27 \x7d);\n\x7d;\n</script>\n</body>\n</html>\n"

/-- The WSGI environ fields `app` consults: request method, path,
content type, and the request body (by its decode outcome).  `none`
models a key missing from the environ. -/
structure HttpRequest where
  method : Option String
  path : Option String
  content_type : Option String
  body : Body

/-- Python `environ.get(key) or default`: the default replaces both a
missing and an empty value. -/
def pyOrDefault (v : Option String) (d : String) : String :=
  match v with
  | none => d
  | some s => if s == "" then d else s

/-- ASCII uppercasing of `method.upper()` (HTTP methods are ASCII). -/
def upperChars (s : String) : String :=
  String.mk (s.data.map Char.toUpper)

/-- Normalization `(environ.get("REQUEST_METHOD") or "GET").upper()` in `app`. -/
def normalized_method (req : HttpRequest) : String :=
  upperChars (pyOrDefault req.method "GET")

/-- Normalization `environ.get("PATH_INFO") or "/"` in `app`. -/
def normalized_path (req : HttpRequest) : String :=
  pyOrDefault req.path "/"

/-- The (method, path) pairs `app` dispatches on, in source order. -/
def route_table : List (String × String) :=
  [("OPTIONS", "/posts"), ("GET", "/"), ("GET", "/health"),
   ("GET", "/openapi.json"), ("GET", "/docs"), ("POST", "/posts")]

/-- Model of `app(environ, start_response)` from api.py: the dispatch chain over
the normalized (method, path), falling through to the 404 response. -/
def app (cap : Capability) (req : HttpRequest) : Response :=
  if normalized_method req == "OPTIONS" && normalized_path req == "/posts" then
    options_response
  else if normalized_method req == "GET" && normalized_path req == "/" then
    json_response 200 (Json.obj [("message", Json.str "Facebook Scraper API"), ("docs", Json.str "/docs")])
  else if normalized_method req == "GET" && normalized_path req == "/health" then
    json_response 200 (Json.obj [("status", Json.str "ok")])
  else if normalized_method req == "GET" && normalized_path req == "/openapi.json" then
    json_response 200 OPENAPI_SPEC
  else if normalized_method req == "GET" && normalized_path req == "/docs" then
    html_response SWAGGER_HTML
  else if normalized_method req == "POST" && normalized_path req == "/posts" then
    handle_posts cap req.content_type req.body
  else
    json_response 404 (Json.obj [("detail", Json.str "Not Found")])

/-! ### Lemmas about the bounded collector -/

theorem collect_loop_spec (lim : Int) :
    ∀ (seq acc : List Json), ((acc.length : Int) < lim) →
      collect_loop lim acc seq = acc ++ seq.take (lim.toNat - acc.length) := by
  intro seq
  induction seq with
  | nil => intro acc _; simp [collect_loop]
  | cons p rest ih =>
    intro acc h
    simp only [collect_loop]
    by_cases hb : lim ≤ (((acc ++ [p]).length : Nat) : Int)
    · rw [if_pos hb]
      have hlim : lim = ((acc.length : Int) + 1) := by
        simp only [List.length_append, List.length_cons, List.length_nil] at hb
        push_cast at hb
        omega
      have ht : lim.toNat - acc.length = 1 := by omega
      rw [ht]
      simp
    · rw [if_neg hb]
      have h2 : (((acc ++ [p]).length : Nat) : Int) < lim := by
        omega
      rw [ih (acc ++ [p]) h2]
      have hlen : (acc ++ [p]).length = acc.length + 1 := by simp
      have hgt : (acc.length : Int) + 1 < lim := by
        rw [hlen] at h2
        push_cast at h2
        omega
      have hsplit : lim.toNat - acc.length = (lim.toNat - (acc.length + 1)) + 1 := by
        omega
      rw [hlen, hsplit]
      simp [List.take_succ_cons]

theorem collect_from_take (seq : List Json) (lim : Int) (h : 1 ≤ lim) :
    collect_from seq lim = seq.take lim.toNat := by
  have h0 : (([] : List Json).length : Int) < lim := by simp; omega
  simpa [collect_from] using collect_loop_spec lim seq [] h0

/-! ### Lemmas about coerce_int -/

theorem coerce_int_ok {value : Json} {field : String} {lo : Int}
    {hi? : Option Int} {n : Int}
    (h : coerce_int value field lo hi? = .ok n) :
    isBool value = false ∧ pyToInt value = .ok n ∧ lo ≤ n
      ∧ ∀ hi, hi? = some hi → n ≤ hi := by
  unfold coerce_int at h
  by_cases hb : isBool value = true
  · rw [if_pos hb] at h; simp at h
  · rw [if_neg hb] at h
    cases hp : pyToInt value with
    | valueError => simp only [hp] at h; simp at h
    | overflowError => simp only [hp] at h; simp at h
    | ok m =>
      simp only [hp] at h
      by_cases hlt : m < lo
      · rw [if_pos hlt] at h; simp at h
      · rw [if_neg hlt] at h
        cases hhi : hi? with
        | none =>
          simp only [hhi] at h
          cases h
          exact ⟨by simpa using hb, rfl, by omega, by simp⟩
        | some hi =>
          simp only [hhi] at h
          by_cases hgt : hi < m
          · rw [if_pos hgt] at h; simp at h
          · rw [if_neg hgt] at h
            cases h
            refine ⟨by simpa using hb, rfl, by omega, ?_⟩
            intro hi2 hh
            cases hh
            omega

theorem coerce_int_api_error {value : Json} {field : String} {lo : Int}
    {hi? : Option Int} {e : APIError}
    (h : coerce_int value field lo hi? = .error (.api e)) :
    e.status_code = 400 ∧ ∃ rest, e.detail = field ++ rest := by
  unfold coerce_int at h
  by_cases hb : isBool value = true
  · rw [if_pos hb] at h
    cases h
    exact ⟨rfl, " must be an integer", rfl⟩
  · rw [if_neg hb] at h
    cases hp : pyToInt value with
    | valueError =>
      simp only [hp] at h
      cases h
      exact ⟨rfl, " must be an integer", rfl⟩
    | overflowError => simp only [hp] at h; simp at h
    | ok m =>
      simp only [hp] at h
      by_cases hlt : m < lo
      · rw [if_pos hlt] at h
        cases h
        exact ⟨rfl, " must be >= " ++ toString lo, String.append_assoc field _ _⟩
      · rw [if_neg hlt] at h
        cases hhi : hi? with
        | none => simp only [hhi] at h; simp at h
        | some hi =>
          simp only [hhi] at h
          by_cases hgt : hi < m
          · rw [if_pos hgt] at h
            cases h
            exact ⟨rfl, " must be <= " ++ toString hi, String.append_assoc field _ _⟩
          · rw [if_neg hgt] at h; simp at h

theorem coerce_int_uncaught {value : Json} {field : String} {lo : Int}
    {hi? : Option Int} {msg : String}
    (h : coerce_int value field lo hi? = .error (.uncaught msg)) :
    pyToInt value = .overflowError
      ∧ msg = "OverflowError: cannot convert float infinity to integer" := by
  unfold coerce_int at h
  by_cases hb : isBool value = true
  · rw [if_pos hb] at h; simp at h
  · rw [if_neg hb] at h
    cases hp : pyToInt value with
    | valueError => simp only [hp] at h; simp at h
    | overflowError =>
      simp only [hp] at h
      cases h
      exact ⟨rfl, rfl⟩
    | ok m =>
      simp only [hp] at h
      by_cases hlt : m < lo
      · rw [if_pos hlt] at h; simp at h
      · rw [if_neg hlt] at h
        cases hhi : hi? with
        | none => simp only [hhi] at h; simp at h
        | some hi =>
          simp only [hhi] at h
          by_cases hgt : hi < m
          · rw [if_pos hgt] at h; simp at h
          · rw [if_neg hgt] at h; simp at h

theorem coerce_int_overflow {value : Json} (field : String) (lo : Int)
    (hi? : Option Int)
    (hb : isBool value = false) (hp : pyToInt value = .overflowError) :
    coerce_int value field lo hi?
      = .error (.uncaught "OverflowError: cannot convert float infinity to integer") := by
  unfold coerce_int
  rw [if_neg (by simp [hb])]
  simp only [hp]

theorem coerce_int_out_of_range {value : Json} {field : String} {lo hi n : Int}
    (hb : isBool value = false) (hp : pyToInt value = .ok n)
    (hlohi : lo ≤ hi) (hout : n < lo ∨ hi < n) :
    ∃ e, coerce_int value field lo (some hi) = .error (.api e) := by
  rcases hout with hlt | hgt
  · exact ⟨⟨400, field ++ " must be >= " ++ toString lo⟩,
      by simp [coerce_int, hb, hp, hlt]⟩
  · have hnl : ¬ (n < lo) := by omega
    exact ⟨⟨400, field ++ " must be <= " ++ toString hi⟩,
      by simp [coerce_int, hb, hp, hnl, hgt]⟩

theorem coerce_int_int_in_range (field : String) {lo hi n : Int}
    (h1 : lo ≤ n) (h2 : n ≤ hi) :
    coerce_int (Json.int n) field lo (some hi) = .ok n := by
  have hne1 : ¬ (n < lo) := by omega
  have hne2 : ¬ (hi < n) := by omega
  simp [coerce_int, isBool, pyToInt, hne1, hne2]

/-! ### Lemmas about the pipeline plumbing -/

theorem collect_posts_yields {cap : Capability} {payload : List (String × Json)}
    {tf : String} {tv : Json} {kwargs : List (String × Json)} {lim : Int}
    {seq : List Json}
    (ht : extract_target payload = .ok (tf, tv))
    (hk : extract_request_kwargs payload = .ok kwargs)
    (hl : coerce_int (dictGetD payload "limit" (Json.int DEFAULT_LIMIT))
      "limit" 1 (some MAX_LIMIT) = .ok lim)
    (hcap : cap tf tv kwargs = .yields seq) :
    collect_posts cap payload = .ok (collect_from seq lim) := by
  simp only [collect_posts, ht, hk, hl, hcap]

theorem posts_pipeline_of_payload {cap : Capability} {body : Body}
    {payload : List (String × Json)}
    (h : load_json_body body = .ok payload) :
    posts_pipeline cap body = collect_posts cap payload := by
  simp only [posts_pipeline, h]

theorem handle_posts_of_ok {cap : Capability} {ct : Option String} {body : Body}
    {posts : List Json}
    (hct : is_json ct = true)
    (hpipe : posts_pipeline cap body = .ok posts) :
    handle_posts cap ct body
      = json_response 200 (Json.obj [("count", Json.int posts.length),
          ("posts", Json.arr posts)]) := by
  simp [handle_posts, hct, hpipe]

theorem handle_posts_of_api {cap : Capability} {ct : Option String} {body : Body}
    {e : APIError}
    (hct : is_json ct = true)
    (hpipe : posts_pipeline cap body = .error (.api e)) :
    handle_posts cap ct body
      = json_response e.status_code (Json.obj [("detail", Json.str e.detail)]) := by
  simp [handle_posts, hct, hpipe]

theorem handle_posts_of_cookies {cap : Capability} {ct : Option String}
    {body : Body} {msg : String}
    (hct : is_json ct = true)
    (hpipe : posts_pipeline cap body = .error (.invalidCookies msg)) :
    handle_posts cap ct body
      = json_response 401 (Json.obj [("detail", Json.str msg)]) := by
  simp [handle_posts, hct, hpipe]

theorem handle_posts_of_unexpected {cap : Capability} {ct : Option String}
    {body : Body} {msg : String}
    (hct : is_json ct = true)
    (hpipe : posts_pipeline cap body = .error (.unexpected msg)) :
    handle_posts cap ct body
      = json_response 502 (Json.obj [("detail", Json.str "Failed to fetch posts")]) := by
  simp [handle_posts, hct, hpipe]

/-! ### Claim theorems -/

/-- Claim C1: for a `POST /posts` request that passes content-type,
body, target, option and limit validation and whose capability yields
the sequence `seq`: the collector returns exactly the first `limit`
posts of `seq` in order and never more than `limit`; when `seq` is
longer than `limit` the response is 200 with `count == limit` and the
first `limit` posts, and the collected result is insensitive to
whatever follows the first `limit` elements of the source (no
over-consumption); when the capability yields zero posts the response
is 200 with `count == 0` and `posts == []`, not an error. -/
theorem claim_C1 (cap : Capability) (ct : Option String) (body : Body)
    (payload : List (String × Json)) (tf : String) (tv : Json)
    (kwargs : List (String × Json)) (lim : Int) (seq : List Json)
    (hct : is_json ct = true)
    (hbody : load_json_body body = .ok payload)
    (ht : extract_target payload = .ok (tf, tv))
    (hk : extract_request_kwargs payload = .ok kwargs)
    (hl : coerce_int (dictGetD payload "limit" (Json.int DEFAULT_LIMIT))
      "limit" 1 (some MAX_LIMIT) = .ok lim)
    (hcap : cap tf tv kwargs = .yields seq) :
    collect_posts cap payload = .ok (seq.take lim.toNat)
    ∧ ((seq.take lim.toNat).length : Int) ≤ lim
    ∧ (lim < (seq.length : Int) →
        handle_posts cap ct body
          = json_response 200 (Json.obj [("count", Json.int lim),
              ("posts", Json.arr (seq.take lim.toNat))])
        ∧ ∀ more, collect_from (seq ++ more) lim = collect_from seq lim)
    ∧ (seq = [] →
        handle_posts cap ct body
          = json_response 200 (Json.obj [("count", Json.int 0),
              ("posts", Json.arr [])])) := by
  obtain ⟨-, -, h1, -⟩ := coerce_int_ok hl
  have htake := collect_from_take seq lim h1
  have hcp : collect_posts cap payload = .ok (seq.take lim.toNat) := by
    rw [collect_posts_yields ht hk hl hcap, htake]
  have hpipe : posts_pipeline cap body = .ok (seq.take lim.toNat) := by
    rw [posts_pipeline_of_payload hbody, hcp]
  refine ⟨hcp, ?_, ?_, ?_⟩
  · rw [List.length_take]
    have hmin : min lim.toNat seq.length ≤ lim.toNat := Nat.min_le_left _ _
    have : ((lim.toNat : Nat) : Int) = lim := Int.toNat_of_nonneg (by omega)
    omega
  · intro hlt
    have hle : lim.toNat ≤ seq.length := by omega
    have hcount : (((seq.take lim.toNat).length : Nat) : Int) = lim := by
      rw [List.length_take, Nat.min_eq_left hle]
      exact Int.toNat_of_nonneg (by omega)
    constructor
    · rw [handle_posts_of_ok hct hpipe, hcount]
    · intro more
      rw [collect_from_take _ lim h1, collect_from_take _ lim h1,
        List.take_append_of_le_length hle]
  · intro hseq
    subst hseq
    have h0 : (([] : List Json).take lim.toNat) = [] := by simp
    rw [h0] at hpipe
    rw [handle_posts_of_ok hct hpipe]
    norm_num

/-- Witness for C1 at the round-trip example of the spec: account
"nintendo", limit 2, capability yielding three posts. -/
theorem claim_C1_witness :
    collect_posts (fun _ _ _ => CapOutcome.yields
        [Json.obj [("post_id", Json.str "1")],
         Json.obj [("post_id", Json.str "2")],
         Json.obj [("post_id", Json.str "3")]])
      [("account", Json.str "nintendo"), ("limit", Json.int 2)]
      = .ok [Json.obj [("post_id", Json.str "1")],
             Json.obj [("post_id", Json.str "2")]]
    ∧ handle_posts (fun _ _ _ => CapOutcome.yields
        [Json.obj [("post_id", Json.str "1")],
         Json.obj [("post_id", Json.str "2")],
         Json.obj [("post_id", Json.str "3")]])
      (some "application/json")
      (Body.value (Json.obj [("account", Json.str "nintendo"), ("limit", Json.int 2)]))
      = json_response 200 (Json.obj
          [("count", Json.int 2),
           ("posts", Json.arr [Json.obj [("post_id", Json.str "1")],
                               Json.obj [("post_id", Json.str "2")]])]) := by
  have h := claim_C1
    (fun _ _ _ => CapOutcome.yields
        [Json.obj [("post_id", Json.str "1")],
         Json.obj [("post_id", Json.str "2")],
         Json.obj [("post_id", Json.str "3")]])
    (some "application/json")
    (Body.value (Json.obj [("account", Json.str "nintendo"), ("limit", Json.int 2)]))
    [("account", Json.str "nintendo"), ("limit", Json.int 2)]
    "account" (Json.str "nintendo") [] 2
    [Json.obj [("post_id", Json.str "1")],
     Json.obj [("post_id", Json.str "2")],
     Json.obj [("post_id", Json.str "3")]]
    (by rfl) (by rfl) (by rfl) (by rfl) (by rfl) (by rfl)
  exact ⟨h.1, (h.2.2.1 (by norm_num)).1⟩

/-- Claim C2: target resolution succeeds with the single (field, value)
pair exactly when exactly one of account, group, post_urls, hashtag
counts as present (value not null, not `""`, not `[]`) and, when that
field is post_urls, its value is a non-empty list; zero or several
present fields give the "Exactly one ..." 400, and a single present
post_urls whose value is not a non-empty list gives the
"post_urls must be a non-empty list of URLs" 400. -/
theorem claim_C2 (payload : List (String × Json)) :
    (∀ v, present v = true ↔ (v ≠ Json.null ∧ v ≠ Json.str "" ∧ v ≠ Json.arr []))
    ∧ (∀ field value, extract_target payload = .ok (field, value) ↔
        (target_candidates payload = [(field, value)]
          ∧ (field = "post_urls" → ∃ u us, value = Json.arr (u :: us))))
    ∧ ((target_candidates payload).length ≠ 1 →
        extract_target payload
          = .error ⟨400, "Exactly one of account, group, post_urls, or hashtag is required"⟩)
    ∧ (∀ value, target_candidates payload = [("post_urls", value)] →
        (∀ u us, value ≠ Json.arr (u :: us)) →
        extract_target payload
          = .error ⟨400, "post_urls must be a non-empty list of URLs"⟩) := by
  refine ⟨?_, ?_, ?_, ?_⟩
  · intro v
    cases v <;> simp [present]
  · intro field value
    constructor
    · intro h
      unfold extract_target at h
      split at h
      case _ f v heq =>
        by_cases hf : (f == "post_urls") = true
        · rw [if_pos hf] at h
          split at h
          case _ u us =>
            cases h
            exact ⟨heq, fun _ => ⟨u, us, rfl⟩⟩
          case _ => simp at h
        · rw [if_neg hf] at h
          cases h
          exact ⟨heq, fun hc => absurd (by simp [hc]) hf⟩
      case _ => simp at h
    · rintro ⟨htc, hpu⟩
      unfold extract_target
      split
      case _ f v heq =>
        rw [htc] at heq
        obtain ⟨rfl, rfl⟩ : f = field ∧ v = value := by
          simpa using heq.symm
        by_cases hf : f = "post_urls"
        · obtain ⟨u, us, rfl⟩ := hpu hf
          simp [hf]
        · have hbe : (f == "post_urls") = false := by simp [hf]
          simp [hbe]
      case _ hne =>
        exact absurd htc (hne field value)
  · intro hlen
    unfold extract_target
    split
    case _ f v heq =>
      rw [heq] at hlen
      simp at hlen
    case _ => rfl
  · intro value htc hne
    unfold extract_target
    split
    case _ f v heq =>
      rw [htc] at heq
      obtain ⟨rfl, rfl⟩ : f = "post_urls" ∧ v = value := by
        simpa using heq.symm
      rw [if_pos (by rfl)]
      split
      case _ u us => exact absurd rfl (hne u us)
      case _ => rfl
    case _ hne2 =>
      exact absurd htc (hne2 "post_urls" value)

/-- Witness for C2: a request supplying `post_urls` as the single
target but with a non-list value is rejected with the post_urls 400. -/
theorem claim_C2_witness :
    extract_target [("post_urls", Json.str "x")]
      = .error ⟨400, "post_urls must be a non-empty list of URLs"⟩ :=
  (claim_C2 [("post_urls", Json.str "x")]).2.2.2 (Json.str "x") (by rfl)
    (fun u us h => Json.noConfusion h)

/-- Claim C3: at the `POST /posts` boundary every pipeline failure is
classified by one total mapping — an `APIError` raised anywhere yields
its own status code and detail, the capability's invalid-credentials
failure yields 401 with the raised message verbatim, and every other
exception yields 502 with exactly the generic "Failed to fetch posts"
body, the internal message never reaching the response. -/
theorem claim_C3 (cap cap2 : Capability) (ct : Option String) (body : Body)
    (payload : List (String × Json)) (tf : String) (tv : Json)
    (kwargs : List (String × Json))
    (hct : is_json ct = true)
    (hbody : load_json_body body = .ok payload)
    (ht : extract_target payload = .ok (tf, tv))
    (hk : extract_request_kwargs payload = .ok kwargs) :
    (∀ e body2, posts_pipeline cap body2 = .error (.api e) →
        handle_posts cap ct body2
          = json_response e.status_code (Json.obj [("detail", Json.str e.detail)]))
    ∧ (∀ lim msg, coerce_int (dictGetD payload "limit" (Json.int DEFAULT_LIMIT))
          "limit" 1 (some MAX_LIMIT) = .ok lim →
        cap tf tv kwargs = .invalidCookies msg →
        handle_posts cap ct body
          = json_response 401 (Json.obj [("detail", Json.str msg)]))
    ∧ (∀ lim msg msg2, coerce_int (dictGetD payload "limit" (Json.int DEFAULT_LIMIT))
          "limit" 1 (some MAX_LIMIT) = .ok lim →
        cap tf tv kwargs = .raises msg → cap2 tf tv kwargs = .raises msg2 →
        handle_posts cap ct body
          = json_response 502 (Json.obj [("detail", Json.str "Failed to fetch posts")])
        ∧ handle_posts cap ct body = handle_posts cap2 ct body) := by
  refine ⟨?_, ?_, ?_⟩
  · intro e body2 hpipe
    exact handle_posts_of_api hct hpipe
  · intro lim msg hl hcap
    have hcp : collect_posts cap payload = .error (.invalidCookies msg) := by
      simp only [collect_posts, ht, hk, hl, hcap]
    exact handle_posts_of_cookies hct (by rw [posts_pipeline_of_payload hbody, hcp])
  · intro lim msg msg2 hl hcap hcap2
    have hcp : collect_posts cap payload = .error (.unexpected msg) := by
      simp only [collect_posts, ht, hk, hl, hcap]
    have hcp2 : collect_posts cap2 payload = .error (.unexpected msg2) := by
      simp only [collect_posts, ht, hk, hl, hcap2]
    have hp1 : posts_pipeline cap body = .error (.unexpected msg) := by
      rw [posts_pipeline_of_payload hbody, hcp]
    have hp2 : posts_pipeline cap2 body = .error (.unexpected msg2) := by
      rw [posts_pipeline_of_payload hbody, hcp2]
    have h1 := handle_posts_of_unexpected hct hp1
    have h2 := handle_posts_of_unexpected hct hp2
    exact ⟨h1, by rw [h1, h2]⟩

/-- Witness for C3: a capability rejecting credentials with message
"bad cookies" produces 401 with exactly that message (the scenario of
`test_invalid_cookies_surface_as_unauthorized`). -/
theorem claim_C3_witness :
    handle_posts (fun _ _ _ => CapOutcome.invalidCookies "bad cookies")
      (some "application/json")
      (Body.value (Json.obj [("account", Json.str "nintendo")]))
      = json_response 401 (Json.obj [("detail", Json.str "bad cookies")]) :=
  ((claim_C3 (fun _ _ _ => CapOutcome.invalidCookies "bad cookies")
      (fun _ _ _ => CapOutcome.raises "boom")
      (some "application/json")
      (Body.value (Json.obj [("account", Json.str "nintendo")]))
      [("account", Json.str "nintendo")] "account" (Json.str "nintendo") []
      (by rfl) (by rfl) (by rfl) (by rfl)).2.1) 10 "bad cookies" (by rfl) (by rfl)

/-- Counterexample to C4 as stated: `_coerce_int` does not accept only
integer-valued input — the float `10.5` is accepted as `10` by the
truncation of `int()` — and a non-coercible float infinity fails with
an uncaught `OverflowError` rather than `ApiError(400, "<field> must
be an integer")`. -/
theorem claim_C4_counterexample :
    coerce_int (Json.float (PyFloat.finite 105 1)) "limit" 1 (some 100)
      = .ok 10
    ∧ coerce_int (Json.float (PyFloat.infinity false)) "limit" 1 (some 100)
        = .error (.uncaught "OverflowError: cannot convert float infinity to integer")
    ∧ coerce_int (Json.float (PyFloat.infinity false)) "limit" 1 (some 100)
        ≠ .error (.api ⟨400, "limit must be an integer"⟩) := by
  refine ⟨rfl, rfl, ?_⟩
  intro h
  rw [show coerce_int (Json.float (PyFloat.infinity false)) "limit" 1 (some 100)
      = .error (.uncaught "OverflowError: cannot convert float infinity to integer")
    from rfl] at h
  cases h

/-- Claim C4 (amended): `_coerce_int` rejects every boolean with
"<field> must be an integer"; every value on which `int()` raises
`TypeError` or `ValueError` — null, lists, objects, non-numeric
strings, `NaN` — fails with the same 400; a float infinity instead
raises an `OverflowError` that the function does not catch, escaping
toward the boundary handler; a finite float is accepted truncated
toward zero (so non-integer-valued input such as 10.5 passes as 10);
a coerced integer below the minimum fails with "<field> must be >=
<minimum>", above a supplied maximum with "<field> must be <=
<maximum>", and otherwise the integer is returned unchanged (the
function is pure, so there are no side effects to speak of). -/
theorem claim_C4 (value : Json) (field : String) (minimum : Int)
    (maximum : Option Int) :
    (∀ b, value = Json.bool b →
        coerce_int value field minimum maximum
          = .error (.api ⟨400, field ++ " must be an integer"⟩))
    ∧ (pyToInt value = .valueError →
        coerce_int value field minimum maximum
          = .error (.api ⟨400, field ++ " must be an integer"⟩))
    ∧ (∀ neg, value = Json.float (PyFloat.infinity neg) →
        coerce_int value field minimum maximum
          = .error (.uncaught "OverflowError: cannot convert float infinity to integer"))
    ∧ (∀ m s, value = Json.float (PyFloat.finite m s) →
        pyToInt value = .ok (Int.tdiv m ((10 : Int) ^ s)))
    ∧ (∀ n, isBool value = false → pyToInt value = .ok n →
        (n < minimum →
          coerce_int value field minimum maximum
            = .error (.api ⟨400, field ++ " must be >= " ++ toString minimum⟩))
        ∧ (∀ mx, maximum = some mx → minimum ≤ n → mx < n →
          coerce_int value field minimum maximum
            = .error (.api ⟨400, field ++ " must be <= " ++ toString mx⟩))
        ∧ (minimum ≤ n → (∀ mx, maximum = some mx → n ≤ mx) →
          coerce_int value field minimum maximum = .ok n)) := by
  refine ⟨?_, ?_, ?_, ?_, ?_⟩
  · intro b h
    subst h
    rfl
  · intro hn
    unfold coerce_int
    by_cases hb : isBool value = true
    · rw [if_pos hb]
    · rw [if_neg hb]
      simp only [hn]
  · intro neg h
    subst h
    exact coerce_int_overflow field minimum maximum rfl rfl
  · intro m s h
    subst h
    rfl
  · intro n hb hp
    refine ⟨?_, ?_, ?_⟩
    · intro hlt
      unfold coerce_int
      rw [if_neg (by simp [hb])]
      simp only [hp]
      rw [if_pos hlt]
    · intro mx hmx h1 h2
      unfold coerce_int
      rw [if_neg (by simp [hb])]
      simp only [hp]
      rw [if_neg (by omega)]
      simp only [hmx]
      rw [if_pos h2]
    · intro h1 h2
      unfold coerce_int
      rw [if_neg (by simp [hb])]
      simp only [hp]
      rw [if_neg (by omega)]
      cases hmx : maximum with
      | none => simp only [hmx]
      | some mx =>
        simp only [hmx]
        have := h2 mx hmx
        rw [if_neg (by omega)]

/-- Witness for C4: the boolean `true` is rejected as a limit even
though Python would accept it as the integer 1, and `NaN` (whose
`int()` raises the caught `ValueError`) gets the same 400. -/
theorem claim_C4_witness :
    coerce_int (Json.bool true) "limit" 1 (some 100)
      = .error (.api ⟨400, "limit must be an integer"⟩)
    ∧ coerce_int (Json.float PyFloat.nan) "limit" 1 (some 100)
      = .error (.api ⟨400, "limit must be an integer"⟩) :=
  ⟨(claim_C4 (Json.bool true) "limit" 1 (some 100)).1 true rfl,
   (claim_C4 (Json.float PyFloat.nan) "limit" 1 (some 100)).2.1 rfl⟩

/-- Counterexample to C5 as stated: the supplied limit `100.7` is
outside `[1, 100]` and not an integer, yet the request succeeds with
200 — `int()` silently brings it into range as 100 — and the supplied
limit `Infinity` yields the 502 upstream response, not a 400
referencing limit. -/
theorem claim_C5_counterexample :
    coerce_int (Json.float (PyFloat.finite 1007 1)) "limit" 1 (some 100)
      = .ok 100
    ∧ handle_posts (fun _ _ _ => CapOutcome.yields [])
        (some "application/json")
        (Body.value (Json.obj [("account", Json.str "a"),
          ("limit", Json.float (PyFloat.finite 1007 1))]))
        = json_response 200 (Json.obj [("count", Json.int 0), ("posts", Json.arr [])])
    ∧ handle_posts (fun _ _ _ => CapOutcome.yields [])
        (some "application/json")
        (Body.value (Json.obj [("account", Json.str "a"),
          ("limit", Json.float (PyFloat.infinity false))]))
        = json_response 502 (Json.obj [("detail", Json.str "Failed to fetch posts")]) :=
  ⟨rfl, rfl, rfl⟩

/-- Claim C5 (amended): when `limit` is absent the default 10 is used;
a supplied limit on which `int()` raises its caught errors, or whose
coerced integer value is outside `[1, 100]`, yields a 400 whose detail
starts with "limit"; but a finite float is truncated by `int()` before
the range check (so 100.7 is silently accepted as limit 100), and a
float infinity raises an uncaught `OverflowError` that surfaces as the
generic 502; an integer limit in `[1, 100]` is used exactly as
supplied. -/
theorem claim_C5 (cap : Capability) (ct : Option String) (body : Body)
    (payload : List (String × Json)) (tf : String) (tv : Json)
    (kwargs : List (String × Json)) (seq : List Json)
    (hct : is_json ct = true)
    (hbody : load_json_body body = .ok payload)
    (ht : extract_target payload = .ok (tf, tv))
    (hk : extract_request_kwargs payload = .ok kwargs)
    (hcap : cap tf tv kwargs = .yields seq) :
    (hasKey payload "limit" = false →
        collect_posts cap payload = .ok (collect_from seq DEFAULT_LIMIT))
    ∧ (∀ v e, dictGet? payload "limit" = some v →
        coerce_int v "limit" 1 (some MAX_LIMIT) = .error (.api e) →
        e.status_code = 400 ∧ (∃ rest, e.detail = "limit" ++ rest)
        ∧ handle_posts cap ct body
            = json_response 400 (Json.obj [("detail", Json.str e.detail)]))
    ∧ (∀ v msg, dictGet? payload "limit" = some v →
        coerce_int v "limit" 1 (some MAX_LIMIT) = .error (.uncaught msg) →
        handle_posts cap ct body
          = json_response 502 (Json.obj [("detail", Json.str "Failed to fetch posts")]))
    ∧ (∀ v n, dictGet? payload "limit" = some v →
        isBool v = false → pyToInt v = .ok n → (n < 1 ∨ MAX_LIMIT < n) →
        ∃ e, coerce_int v "limit" 1 (some MAX_LIMIT) = .error (.api e))
    ∧ (∀ m s, dictGet? payload "limit" = some (Json.float (PyFloat.finite m s)) →
        1 ≤ Int.tdiv m ((10 : Int) ^ s) → Int.tdiv m ((10 : Int) ^ s) ≤ MAX_LIMIT →
        collect_posts cap payload
          = .ok (collect_from seq (Int.tdiv m ((10 : Int) ^ s))))
    ∧ (∀ n : Int, 1 ≤ n → n ≤ MAX_LIMIT →
        dictGet? payload "limit" = some (Json.int n) →
        collect_posts cap payload = .ok (collect_from seq n)) := by
  refine ⟨?_, ?_, ?_, ?_, ?_, ?_⟩
  · intro habs
    have hnone : dictGet? payload "limit" = none := by
      cases hsome : dictGet? payload "limit" with
      | none => rfl
      | some v => rw [hasKey, hsome] at habs; simp at habs
    have hdg : dictGetD payload "limit" (Json.int DEFAULT_LIMIT)
        = Json.int DEFAULT_LIMIT := by
      simp [dictGetD, hnone]
    have hl : coerce_int (dictGetD payload "limit" (Json.int DEFAULT_LIMIT))
        "limit" 1 (some MAX_LIMIT) = .ok DEFAULT_LIMIT := by
      rw [hdg]
      exact coerce_int_int_in_range "limit" (by norm_num [DEFAULT_LIMIT])
        (by norm_num [DEFAULT_LIMIT, MAX_LIMIT])
    exact collect_posts_yields ht hk hl hcap
  · intro v e hsome herr
    obtain ⟨h400, hrest⟩ := coerce_int_api_error herr
    have hdg : dictGetD payload "limit" (Json.int DEFAULT_LIMIT) = v := by
      simp [dictGetD, hsome]
    have hcp : collect_posts cap payload = .error (.api e) := by
      rw [collect_posts]
      rw [ht, hdg]
      simp only [hk, herr]
    have hpipe : posts_pipeline cap body = .error (.api e) := by
      rw [posts_pipeline_of_payload hbody, hcp]
    have hresp := handle_posts_of_api hct hpipe
    rw [h400] at hresp
    exact ⟨h400, hrest, hresp⟩
  · intro v msg hsome herr
    have hdg : dictGetD payload "limit" (Json.int DEFAULT_LIMIT) = v := by
      simp [dictGetD, hsome]
    have hcp : collect_posts cap payload = .error (.unexpected msg) := by
      rw [collect_posts]
      rw [ht, hdg]
      simp only [hk, herr]
    have hpipe : posts_pipeline cap body = .error (.unexpected msg) := by
      rw [posts_pipeline_of_payload hbody, hcp]
    exact handle_posts_of_unexpected hct hpipe
  · intro v n hsome hb hp hout
    exact coerce_int_out_of_range hb hp (by norm_num [MAX_LIMIT]) hout
  · intro m s hsome h1 h2
    have hdg : dictGetD payload "limit" (Json.int DEFAULT_LIMIT)
        = Json.float (PyFloat.finite m s) := by
      simp [dictGetD, hsome]
    have hl : coerce_int (dictGetD payload "limit" (Json.int DEFAULT_LIMIT))
        "limit" 1 (some MAX_LIMIT) = .ok (Int.tdiv m ((10 : Int) ^ s)) := by
      rw [hdg]
      unfold coerce_int
      rw [if_neg (by simp [isBool])]
      simp only [pyToInt]
      rw [if_neg (by omega)]
      rw [if_neg (by omega)]
    exact collect_posts_yields ht hk hl hcap
  · intro n h1 h2 hsome
    have hdg : dictGetD payload "limit" (Json.int DEFAULT_LIMIT) = Json.int n := by
      simp [dictGetD, hsome]
    have hl : coerce_int (dictGetD payload "limit" (Json.int DEFAULT_LIMIT))
        "limit" 1 (some MAX_LIMIT) = .ok n := by
      rw [hdg]
      exact coerce_int_int_in_range "limit" h1 h2
    exact collect_posts_yields ht hk hl hcap

/-- Witness for C5: supplying `limit: 0` yields the 400 "limit must
be >= 1", a detail referencing limit, instead of clamping it. -/
theorem claim_C5_witness :
    (⟨400, "limit must be >= 1"⟩ : APIError).status_code = 400
    ∧ (∃ rest, (⟨400, "limit must be >= 1"⟩ : APIError).detail = "limit" ++ rest)
    ∧ handle_posts (fun _ _ _ => CapOutcome.yields [])
        (some "application/json")
        (Body.value (Json.obj [("account", Json.str "nintendo"), ("limit", Json.int 0)]))
        = json_response 400 (Json.obj [("detail", Json.str "limit must be >= 1")]) :=
  (claim_C5 (fun _ _ _ => CapOutcome.yields [])
      (some "application/json")
      (Body.value (Json.obj [("account", Json.str "nintendo"), ("limit", Json.int 0)]))
      [("account", Json.str "nintendo"), ("limit", Json.int 0)]
      "account" (Json.str "nintendo") [] []
      (by rfl) (by rfl) (by rfl) (by rfl) (by rfl)).2.1
    (Json.int 0) ⟨400, "limit must be >= 1"⟩ (by rfl) (by rfl)

/-- How an error escaping `_extract_request_kwargs` or `_coerce_int`
surfaces from `_collect_posts`: a raised `APIError` stays an
`APIError`, any other uncaught exception propagates as an unexpected
failure for the boundary handler. -/
def PostsError.ofPyErr : PyErr → PostsError
  | .api e => .api e
  | .uncaught msg => .unexpected msg

/-- Claim C6: the `POST /posts` handler runs its checks in a fixed
order with short-circuit on first failure — a non-JSON content type is
rejected with 415 independently of the body; an empty body, malformed
JSON, or non-object top level each give a descriptive 400; then target
resolution, option extraction and limit coercion fail in that order;
and whenever any validation step fails the response does not depend on
the capability (it is never invoked). -/
theorem claim_C6 (cap cap2 : Capability) (ct : Option String) (body body2 : Body)
    (payload : List (String × Json)) :
    (is_json ct = false →
        handle_posts cap ct body
          = json_response 415 (Json.obj
              [("detail", Json.str "Content-Type must be application/json")])
        ∧ handle_posts cap ct body = handle_posts cap2 ct body2)
    ∧ load_json_body Body.empty = .error ⟨400, "Request body is required"⟩
    ∧ (∀ msg, load_json_body (Body.malformed msg)
        = .error ⟨400, "Invalid JSON payload: " ++ msg⟩)
    ∧ (∀ j, (∀ fs, j ≠ Json.obj fs) →
        load_json_body (Body.value j)
          = .error ⟨400, "JSON payload must be an object"⟩)
    ∧ (∀ e, load_json_body body = .error e → is_json ct = true →
        handle_posts cap ct body
          = json_response e.status_code (Json.obj [("detail", Json.str e.detail)])
        ∧ handle_posts cap ct body = handle_posts cap2 ct body)
    ∧ (∀ e, extract_target payload = .error e →
        collect_posts cap payload = .error (.api e)
        ∧ collect_posts cap payload = collect_posts cap2 payload)
    ∧ (∀ tgt e, extract_target payload = .ok tgt →
        extract_request_kwargs payload = .error e →
        collect_posts cap payload = .error (PostsError.ofPyErr e)
        ∧ collect_posts cap payload = collect_posts cap2 payload)
    ∧ (∀ tgt kwargs e, extract_target payload = .ok tgt →
        extract_request_kwargs payload = .ok kwargs →
        coerce_int (dictGetD payload "limit" (Json.int DEFAULT_LIMIT))
          "limit" 1 (some MAX_LIMIT) = .error e →
        collect_posts cap payload = .error (PostsError.ofPyErr e)
        ∧ collect_posts cap payload = collect_posts cap2 payload) := by
  refine ⟨?_, rfl, fun msg => rfl, ?_, ?_, ?_, ?_, ?_⟩
  · intro h
    constructor
    · simp [handle_posts, h]
    · simp [handle_posts, h]
  · intro j hj
    cases j with
    | obj fs => exact absurd rfl (hj fs)
    | null => rfl
    | bool b => rfl
    | int n => rfl
    | float f => rfl
    | str s => rfl
    | arr xs => rfl
  · intro e herr hct
    have hp : ∀ c : Capability, posts_pipeline c body = .error (.api e) := by
      intro c
      simp only [posts_pipeline, herr]
    exact ⟨handle_posts_of_api hct (hp cap),
      by rw [handle_posts_of_api hct (hp cap), handle_posts_of_api hct (hp cap2)]⟩
  · intro e herr
    have hc : ∀ c : Capability, collect_posts c payload = .error (.api e) := by
      intro c
      simp only [collect_posts, herr]
    exact ⟨hc cap, by rw [hc cap, hc cap2]⟩
  · intro tgt e ht hkerr
    rcases tgt with ⟨tf0, tv0⟩
    have hc : ∀ c : Capability,
        collect_posts c payload = .error (PostsError.ofPyErr e) := by
      intro c
      cases e with
      | api e0 => simp only [collect_posts, ht, hkerr, PostsError.ofPyErr]
      | uncaught msg => simp only [collect_posts, ht, hkerr, PostsError.ofPyErr]
    exact ⟨hc cap, by rw [hc cap, hc cap2]⟩
  · intro tgt kwargs e ht hk hlerr
    rcases tgt with ⟨tf0, tv0⟩
    have hc : ∀ c : Capability,
        collect_posts c payload = .error (PostsError.ofPyErr e) := by
      intro c
      cases e with
      | api e0 => simp only [collect_posts, ht, hk, hlerr, PostsError.ofPyErr]
      | uncaught msg => simp only [collect_posts, ht, hk, hlerr, PostsError.ofPyErr]
    exact ⟨hc cap, by rw [hc cap, hc cap2]⟩

/-- Witness for C6: a request with content type `text/plain` is turned
away with 415 no matter what body or capability is behind it. -/
theorem claim_C6_witness :
    handle_posts (fun _ _ _ => CapOutcome.yields [Json.null])
      (some "text/plain") Body.empty
      = json_response 415 (Json.obj
          [("detail", Json.str "Content-Type must be application/json")])
    ∧ handle_posts (fun _ _ _ => CapOutcome.yields [Json.null])
        (some "text/plain") Body.empty
      = handle_posts (fun _ _ _ => CapOutcome.raises "boom")
          (some "text/plain") (Body.malformed "oops") :=
  (claim_C6 (fun _ _ _ => CapOutcome.yields [Json.null])
      (fun _ _ _ => CapOutcome.raises "boom")
      (some "text/plain") Body.empty (Body.malformed "oops") []).1 (by rfl)

/-! ### Lemmas about dict lookup and the kwargs chunks -/

theorem dictGet?_nil (k : String) : dictGet? [] k = none := rfl

theorem dictGet?_cons (k0 : String) (v0 : Json) (rest : List (String × Json))
    (k : String) :
    dictGet? ((k0, v0) :: rest) k
      = if (k0 == k) = true then some v0 else dictGet? rest k := by
  by_cases h : (k0 == k) = true
  · simp [dictGet?, List.find?, h]
  · simp only [dictGet?, List.find?] at *
    simp [h]

theorem dictGet?_append_none {a b : List (String × Json)} {k : String}
    (h : dictGet? a k = none) :
    dictGet? (a ++ b) k = dictGet? b k := by
  induction a with
  | nil => rfl
  | cons p rest ih =>
    rcases p with ⟨k0, v0⟩
    rw [dictGet?_cons] at h
    by_cases hb : (k0 == k) = true
    · rw [if_pos hb] at h; exact absurd h (by simp)
    · rw [if_neg hb] at h
      rw [List.cons_append, dictGet?_cons, if_neg hb]
      exact ih h

theorem dictGet?_append_some {a b : List (String × Json)} {k : String} {v : Json}
    (h : dictGet? a k = some v) :
    dictGet? (a ++ b) k = some v := by
  induction a with
  | nil => exact absurd h (by simp [dictGet?])
  | cons p rest ih =>
    rcases p with ⟨k0, v0⟩
    rw [dictGet?_cons] at h
    by_cases hb : (k0 == k) = true
    · rw [if_pos hb] at h
      rw [List.cons_append, dictGet?_cons, if_pos hb]
      exact h
    · rw [if_neg hb] at h
      rw [List.cons_append, dictGet?_cons, if_neg hb]
      exact ih h

theorem dictGet?_concat_none {a b : List (String × Json)} {k : String}
    (ha : dictGet? a k = none) (hb : dictGet? b k = none) :
    dictGet? (a ++ b) k = none := by
  rw [dictGet?_append_none ha]; exact hb

/-- A kwargs chunk holds at most one entry, always under its own key. -/
def chunkKeyed (k0 : String) (ks : List (String × Json)) : Prop :=
  ks = [] ∨ ∃ x, ks = [(k0, x)]

theorem dictGet?_chunk_ne {k0 : String} {ks : List (String × Json)} {k : String}
    (h : chunkKeyed k0 ks) (hne : (k0 == k) = false) :
    dictGet? ks k = none := by
  rcases h with rfl | ⟨x, rfl⟩
  · rfl
  · rw [dictGet?_cons, if_neg (by simp [hne]), dictGet?_nil]

theorem dictGet_of_some {payload : List (String × Json)} {k : String} {v : Json}
    (h : dictGet? payload k = some v) : dictGet payload k = v := by
  rw [dictGet, h]; rfl

theorem dictGet?_of_dictGet_ne_null {payload : List (String × Json)} {k : String}
    {v : Json} (h : dictGet payload k = v) (hne : v ≠ Json.null) :
    dictGet? payload k = some v := by
  rw [dictGet] at h
  cases hd : dictGet? payload k with
  | none => rw [hd] at h; exact absurd h.symm hne
  | some w => rw [hd] at h; cases h; rfl

theorem int_kwarg_shape {payload : List (String × Json)} {key : String}
    {ks : List (String × Json)}
    (h : int_kwarg payload key = .ok ks) :
    (dictGet? payload key = none ∧ ks = [])
    ∨ (∃ v n, dictGet? payload key = some v ∧ coerce_int v key 1 none = .ok n
        ∧ ks = [(key, Json.int n)]) := by
  unfold int_kwarg at h
  split at h
  · rename_i hd
    cases h
    exact .inl ⟨hd, rfl⟩
  · rename_i v hd
    split at h
    · exact absurd h (by simp)
    · rename_i n hc
      cases h
      exact .inr ⟨v, n, hd, hc, rfl⟩

theorem int_kwarg_chunkKeyed {payload : List (String × Json)} {key : String}
    {ks : List (String × Json)}
    (h : int_kwarg payload key = .ok ks) : chunkKeyed key ks := by
  rcases int_kwarg_shape h with ⟨-, rfl⟩ | ⟨v, n, -, -, rfl⟩
  · exact .inl rfl
  · exact .inr ⟨Json.int n, rfl⟩

theorem options_kwarg_shape {payload : List (String × Json)}
    {ks : List (String × Json)}
    (h : options_kwarg payload = .ok ks) :
    (dictGet payload "options" = Json.null ∧ ks = [])
    ∨ (∃ fs, dictGet payload "options" = Json.obj fs
        ∧ ks = [("options", Json.obj fs)]) := by
  unfold options_kwarg at h
  split at h
  · rename_i hd
    cases h
    exact .inl ⟨hd, rfl⟩
  · rename_i fs hd
    cases h
    exact .inr ⟨fs, hd, rfl⟩
  · exact absurd h (by simp)

theorem options_kwarg_chunkKeyed {payload : List (String × Json)}
    {ks : List (String × Json)}
    (h : options_kwarg payload = .ok ks) : chunkKeyed "options" ks := by
  rcases options_kwarg_shape h with ⟨-, rfl⟩ | ⟨fs, -, rfl⟩
  · exact .inl rfl
  · exact .inr ⟨Json.obj fs, rfl⟩

theorem cookies_kwarg_shape {payload : List (String × Json)}
    {ks : List (String × Json)}
    (h : cookies_kwarg payload = .ok ks) :
    (dictGet payload "cookies" = Json.null ∧ ks = [])
    ∨ (∃ s, dictGet payload "cookies" = Json.str s
        ∧ ks = [("cookies", Json.str s)])
    ∨ (∃ fs, dictGet payload "cookies" = Json.obj fs
        ∧ ks = [("cookies", Json.obj fs)]) := by
  unfold cookies_kwarg at h
  split at h
  · rename_i hd
    cases h
    exact .inl ⟨hd, rfl⟩
  · rename_i s hd
    cases h
    exact .inr (.inl ⟨s, hd, rfl⟩)
  · rename_i fs hd
    cases h
    exact .inr (.inr ⟨fs, hd, rfl⟩)
  · exact absurd h (by simp)

theorem cookies_kwarg_chunkKeyed {payload : List (String × Json)}
    {ks : List (String × Json)}
    (h : cookies_kwarg payload = .ok ks) : chunkKeyed "cookies" ks := by
  rcases cookies_kwarg_shape h with ⟨-, rfl⟩ | ⟨s, -, rfl⟩ | ⟨fs, -, rfl⟩
  · exact .inl rfl
  · exact .inr ⟨Json.str s, rfl⟩
  · exact .inr ⟨Json.obj fs, rfl⟩

theorem bool_kwarg_shape (payload : List (String × Json)) (key : String) :
    (dictGet? payload key = none ∧ bool_kwarg payload key = [])
    ∨ (∃ v, dictGet? payload key = some v
        ∧ bool_kwarg payload key = [(key, Json.bool (pyTruthy v))]) := by
  unfold bool_kwarg
  cases hd : dictGet? payload key with
  | none => exact .inl ⟨rfl, rfl⟩
  | some v => exact .inr ⟨v, rfl, rfl⟩

theorem bool_kwarg_chunkKeyed (payload : List (String × Json)) (key : String) :
    chunkKeyed key (bool_kwarg payload key) := by
  rcases bool_kwarg_shape payload key with ⟨-, he⟩ | ⟨v, -, he⟩
  · exact .inl he
  · rw [he]
    exact .inr ⟨Json.bool (pyTruthy v), rfl⟩

/-- First-hit semantics of lookup over concatenated chunks. -/
def firstSome : Option Json → Option Json → Option Json
  | some v, _ => some v
  | none, b => b

theorem dictGet?_append_eq (a b : List (String × Json)) (k : String) :
    dictGet? (a ++ b) k = firstSome (dictGet? a k) (dictGet? b k) := by
  cases h : dictGet? a k with
  | some v => rw [dictGet?_append_some h]; rfl
  | none => rw [dictGet?_append_none h]; rfl

theorem dictGet?_chain7 (l1 l2 l3 l4 l5 l6 l7 : List (String × Json)) (k : String) :
    dictGet? (l1 ++ l2 ++ l3 ++ l4 ++ l5 ++ l6 ++ l7) k
      = firstSome (firstSome (firstSome (firstSome (firstSome (firstSome
          (dictGet? l1 k) (dictGet? l2 k)) (dictGet? l3 k)) (dictGet? l4 k))
          (dictGet? l5 k)) (dictGet? l6 k)) (dictGet? l7 k) := by
  rw [dictGet?_append_eq, dictGet?_append_eq, dictGet?_append_eq,
    dictGet?_append_eq, dictGet?_append_eq, dictGet?_append_eq]

theorem dictGet?_chain7_none {l1 l2 l3 l4 l5 l6 l7 : List (String × Json)}
    {k : String}
    (h1 : dictGet? l1 k = none) (h2 : dictGet? l2 k = none)
    (h3 : dictGet? l3 k = none) (h4 : dictGet? l4 k = none)
    (h5 : dictGet? l5 k = none) (h6 : dictGet? l6 k = none)
    (h7 : dictGet? l7 k = none) :
    dictGet? (l1 ++ l2 ++ l3 ++ l4 ++ l5 ++ l6 ++ l7) k = none := by
  rw [dictGet?_chain7, h1, h2, h3, h4, h5, h6, h7]
  rfl

theorem dictGet?_chain7_pos1 {l1 l2 l3 l4 l5 l6 l7 : List (String × Json)}
    {k : String} {v : Json}
    (h1 : dictGet? l1 k = some v) :
    dictGet? (l1 ++ l2 ++ l3 ++ l4 ++ l5 ++ l6 ++ l7) k = some v := by
  rw [dictGet?_chain7, h1]
  rfl

theorem dictGet?_chain7_pos2 {l1 l2 l3 l4 l5 l6 l7 : List (String × Json)}
    {k : String} {v : Json}
    (h1 : dictGet? l1 k = none) (h2 : dictGet? l2 k = some v) :
    dictGet? (l1 ++ l2 ++ l3 ++ l4 ++ l5 ++ l6 ++ l7) k = some v := by
  rw [dictGet?_chain7, h1, h2]
  rfl

theorem dictGet?_chain7_pos3 {l1 l2 l3 l4 l5 l6 l7 : List (String × Json)}
    {k : String} {v : Json}
    (h1 : dictGet? l1 k = none) (h2 : dictGet? l2 k = none)
    (h3 : dictGet? l3 k = some v) :
    dictGet? (l1 ++ l2 ++ l3 ++ l4 ++ l5 ++ l6 ++ l7) k = some v := by
  rw [dictGet?_chain7, h1, h2, h3]
  rfl

theorem dictGet?_chain7_pos4 {l1 l2 l3 l4 l5 l6 l7 : List (String × Json)}
    {k : String} {v : Json}
    (h1 : dictGet? l1 k = none) (h2 : dictGet? l2 k = none)
    (h3 : dictGet? l3 k = none) (h4 : dictGet? l4 k = some v) :
    dictGet? (l1 ++ l2 ++ l3 ++ l4 ++ l5 ++ l6 ++ l7) k = some v := by
  rw [dictGet?_chain7, h1, h2, h3, h4]
  rfl

theorem dictGet?_chain7_pos5 {l1 l2 l3 l4 l5 l6 l7 : List (String × Json)}
    {k : String} {v : Json}
    (h1 : dictGet? l1 k = none) (h2 : dictGet? l2 k = none)
    (h3 : dictGet? l3 k = none) (h4 : dictGet? l4 k = none)
    (h5 : dictGet? l5 k = some v) :
    dictGet? (l1 ++ l2 ++ l3 ++ l4 ++ l5 ++ l6 ++ l7) k = some v := by
  rw [dictGet?_chain7, h1, h2, h3, h4, h5]
  rfl

theorem dictGet?_chain7_pos6 {l1 l2 l3 l4 l5 l6 l7 : List (String × Json)}
    {k : String} {v : Json}
    (h1 : dictGet? l1 k = none) (h2 : dictGet? l2 k = none)
    (h3 : dictGet? l3 k = none) (h4 : dictGet? l4 k = none)
    (h5 : dictGet? l5 k = none) (h6 : dictGet? l6 k = some v) :
    dictGet? (l1 ++ l2 ++ l3 ++ l4 ++ l5 ++ l6 ++ l7) k = some v := by
  rw [dictGet?_chain7, h1, h2, h3, h4, h5, h6]
  rfl

theorem dictGet?_chain7_pos7 {l1 l2 l3 l4 l5 l6 l7 : List (String × Json)}
    {k : String} {v : Json}
    (h1 : dictGet? l1 k = none) (h2 : dictGet? l2 k = none)
    (h3 : dictGet? l3 k = none) (h4 : dictGet? l4 k = none)
    (h5 : dictGet? l5 k = none) (h6 : dictGet? l6 k = none)
    (h7 : dictGet? l7 k = some v) :
    dictGet? (l1 ++ l2 ++ l3 ++ l4 ++ l5 ++ l6 ++ l7) k = some v := by
  rw [dictGet?_chain7, h1, h2, h3, h4, h5, h6, h7]
  rfl

theorem chunk_lookup_absent {payload : List (String × Json)} {key0 k : String}
    {ks : List (String × Json)} (hck : chunkKeyed key0 ks)
    (hpres : ks ≠ [] → ∃ v, dictGet? payload key0 = some v)
    (hnone : dictGet? payload k = none) : dictGet? ks k = none := by
  rcases hck with rfl | ⟨x, rfl⟩
  · rfl
  · by_cases hbe : (key0 == k) = true
    · have hkk : key0 = k := by simpa using hbe
      subst hkk
      obtain ⟨v, hv⟩ := hpres (by simp)
      rw [hv] at hnone
      exact absurd hnone (by simp)
    · rw [dictGet?_cons, if_neg (by simp [hbe]), dictGet?_nil]

theorem extract_request_kwargs_ok {payload kwargs : List (String × Json)}
    (h : extract_request_kwargs payload = .ok kwargs) :
    ∃ k1 k2 k3 k4 k5,
      int_kwarg payload "pages" = .ok k1
      ∧ int_kwarg payload "page_limit" = .ok k2
      ∧ int_kwarg payload "timeout" = .ok k3
      ∧ options_kwarg payload = .ok k4
      ∧ cookies_kwarg payload = .ok k5
      ∧ kwargs = k1 ++ k2 ++ k3 ++ k4 ++ k5
          ++ bool_kwarg payload "extra_info" ++ bool_kwarg payload "youtube_dl" := by
  unfold extract_request_kwargs at h
  split at h
  · exact absurd h (by simp)
  · rename_i k1 h1
    split at h
    · exact absurd h (by simp)
    · rename_i k2 h2
      split at h
      · exact absurd h (by simp)
      · rename_i k3 h3
        split at h
        · exact absurd h (by simp)
        · rename_i k4 h4
          split at h
          · exact absurd h (by simp)
          · rename_i k5 h5
            cases h
            exact ⟨k1, k2, k3, k4, k5, h1, h2, h3, h4, h5, rfl⟩

theorem dictGet?_single_self (key : String) (x : Json) :
    dictGet? [(key, x)] key = some x := by
  rw [dictGet?_cons, if_pos (by simp)]

/-- The three integer option keys coerced without error (possibly by
being absent) — the state in which `_extract_request_kwargs` reaches
its `options` check. -/
def int_kwargs_ok (payload : List (String × Json)) : Prop :=
  ∃ a b c, int_kwarg payload "pages" = .ok a
    ∧ int_kwarg payload "page_limit" = .ok b
    ∧ int_kwarg payload "timeout" = .ok c

theorem options_kwarg_bad {payload : List (String × Json)}
    (hnn : dictGet payload "options" ≠ Json.null)
    (hno : ∀ fs, dictGet payload "options" ≠ Json.obj fs) :
    options_kwarg payload = .error (.api ⟨400, "options must be an object"⟩) := by
  unfold options_kwarg
  split
  · rename_i hd; exact absurd hd hnn
  · rename_i fs hd; exact absurd hd (hno fs)
  · rfl

theorem cookies_kwarg_bad {payload : List (String × Json)}
    (hnn : dictGet payload "cookies" ≠ Json.null)
    (hns : ∀ s, dictGet payload "cookies" ≠ Json.str s)
    (hno : ∀ fs, dictGet payload "cookies" ≠ Json.obj fs) :
    cookies_kwarg payload
      = .error (.api ⟨400, "cookies must be a string path or name/value mapping"⟩) := by
  unfold cookies_kwarg
  split
  · rename_i hd; exact absurd hd hnn
  · rename_i s hd; exact absurd hd (hns s)
  · rename_i fs hd; exact absurd hd (hno fs)
  · rfl

/-- Claim C7: option extraction puts pages, page_limit and timeout in
the kwargs map only when present, coerced with minimum 1 and no
maximum, under the same key; a non-null `options` that is not an
object fails with its 400, an object is passed through unchanged; a
non-null `cookies` must be a string or a mapping (failing with its
400 otherwise) and is passed through; present `extra_info` and
`youtube_dl` values of any type become their truthiness; and keys
absent from the request are absent from the output. -/
theorem claim_C7 (payload kwargs : List (String × Json)) :
    (extract_request_kwargs payload = .ok kwargs →
      (∀ key, (key = "pages" ∨ key = "page_limit" ∨ key = "timeout") →
        (dictGet? payload key = none → dictGet? kwargs key = none)
        ∧ (∀ v, dictGet? payload key = some v →
            ∃ n, coerce_int v key 1 none = .ok n
              ∧ dictGet? kwargs key = some (Json.int n)))
      ∧ (dictGet payload "options" = Json.null → dictGet? kwargs "options" = none)
      ∧ (∀ fs, dictGet payload "options" = Json.obj fs →
          dictGet? kwargs "options" = some (Json.obj fs))
      ∧ (∀ v, dictGet? payload "cookies" = some v → v ≠ Json.null →
          ((∃ s, v = Json.str s) ∨ (∃ fs, v = Json.obj fs))
          ∧ dictGet? kwargs "cookies" = some v)
      ∧ (∀ key, (key = "extra_info" ∨ key = "youtube_dl") →
        (dictGet? payload key = none → dictGet? kwargs key = none)
        ∧ (∀ v, dictGet? payload key = some v →
            dictGet? kwargs key = some (Json.bool (pyTruthy v))))
      ∧ (∀ key, dictGet? payload key = none → dictGet? kwargs key = none))
    ∧ (int_kwargs_ok payload → dictGet payload "options" ≠ Json.null →
        (∀ fs, dictGet payload "options" ≠ Json.obj fs) →
        extract_request_kwargs payload
          = .error (.api ⟨400, "options must be an object"⟩))
    ∧ (int_kwargs_ok payload → (∃ d, options_kwarg payload = .ok d) →
        dictGet payload "cookies" ≠ Json.null →
        (∀ s, dictGet payload "cookies" ≠ Json.str s) →
        (∀ fs, dictGet payload "cookies" ≠ Json.obj fs) →
        extract_request_kwargs payload
          = .error (.api ⟨400, "cookies must be a string path or name/value mapping"⟩)) := by
  refine ⟨?_, ?_, ?_⟩
  · intro hk
    obtain ⟨k1, k2, k3, k4, k5, h1, h2, h3, h4, h5, rfl⟩ :=
      extract_request_kwargs_ok hk
    have c1 := int_kwarg_chunkKeyed h1
    have c2 := int_kwarg_chunkKeyed h2
    have c3 := int_kwarg_chunkKeyed h3
    have c4 := options_kwarg_chunkKeyed h4
    have c5 := cookies_kwarg_chunkKeyed h5
    have c6 := bool_kwarg_chunkKeyed payload "extra_info"
    have c7 := bool_kwarg_chunkKeyed payload "youtube_dl"
    have p1 : k1 ≠ [] → ∃ v, dictGet? payload "pages" = some v := by
      intro hne
      rcases int_kwarg_shape h1 with ⟨-, rfl⟩ | ⟨v, n, hv, -, -⟩
      · exact absurd rfl hne
      · exact ⟨v, hv⟩
    have p2 : k2 ≠ [] → ∃ v, dictGet? payload "page_limit" = some v := by
      intro hne
      rcases int_kwarg_shape h2 with ⟨-, rfl⟩ | ⟨v, n, hv, -, -⟩
      · exact absurd rfl hne
      · exact ⟨v, hv⟩
    have p3 : k3 ≠ [] → ∃ v, dictGet? payload "timeout" = some v := by
      intro hne
      rcases int_kwarg_shape h3 with ⟨-, rfl⟩ | ⟨v, n, hv, -, -⟩
      · exact absurd rfl hne
      · exact ⟨v, hv⟩
    have p4 : k4 ≠ [] → ∃ v, dictGet? payload "options" = some v := by
      intro hne
      rcases options_kwarg_shape h4 with ⟨-, rfl⟩ | ⟨fs, hv, -⟩
      · exact absurd rfl hne
      · exact ⟨Json.obj fs, dictGet?_of_dictGet_ne_null hv (fun h => Json.noConfusion h)⟩
    have p5 : k5 ≠ [] → ∃ v, dictGet? payload "cookies" = some v := by
      intro hne
      rcases cookies_kwarg_shape h5 with ⟨-, rfl⟩ | ⟨s, hv, -⟩ | ⟨fs, hv, -⟩
      · exact absurd rfl hne
      · exact ⟨Json.str s, dictGet?_of_dictGet_ne_null hv (fun h => Json.noConfusion h)⟩
      · exact ⟨Json.obj fs, dictGet?_of_dictGet_ne_null hv (fun h => Json.noConfusion h)⟩
    have p6 : bool_kwarg payload "extra_info" ≠ []
        → ∃ v, dictGet? payload "extra_info" = some v := by
      intro hne
      rcases bool_kwarg_shape payload "extra_info" with ⟨-, he⟩ | ⟨v, hv, -⟩
      · exact absurd he hne
      · exact ⟨v, hv⟩
    have p7 : bool_kwarg payload "youtube_dl" ≠ []
        → ∃ v, dictGet? payload "youtube_dl" = some v := by
      intro hne
      rcases bool_kwarg_shape payload "youtube_dl" with ⟨-, he⟩ | ⟨v, hv, -⟩
      · exact absurd he hne
      · exact ⟨v, hv⟩
    refine ⟨?_, ?_, ?_, ?_, ?_, ?_⟩
    · intro key hkey
      rcases hkey with rfl | rfl | rfl
      · constructor
        · intro hd
          rcases int_kwarg_shape h1 with ⟨-, rfl⟩ | ⟨v, n, hv, -, -⟩
          · exact dictGet?_chain7_none rfl
              (dictGet?_chunk_ne c2 (by decide)) (dictGet?_chunk_ne c3 (by decide))
              (dictGet?_chunk_ne c4 (by decide)) (dictGet?_chunk_ne c5 (by decide))
              (dictGet?_chunk_ne c6 (by decide)) (dictGet?_chunk_ne c7 (by decide))
          · rw [hd] at hv; exact absurd hv (by simp)
        · intro v hd
          rcases int_kwarg_shape h1 with ⟨hn, rfl⟩ | ⟨v2, n, hv2, hc, rfl⟩
          · rw [hd] at hn; exact absurd hn (by simp)
          · rw [hd] at hv2
            obtain rfl := Option.some.inj hv2
            exact ⟨n, hc, dictGet?_chain7_pos1 (dictGet?_single_self _ _)⟩
      · constructor
        · intro hd
          rcases int_kwarg_shape h2 with ⟨-, rfl⟩ | ⟨v, n, hv, -, -⟩
          · exact dictGet?_chain7_none (dictGet?_chunk_ne c1 (by decide)) rfl
              (dictGet?_chunk_ne c3 (by decide)) (dictGet?_chunk_ne c4 (by decide))
              (dictGet?_chunk_ne c5 (by decide)) (dictGet?_chunk_ne c6 (by decide))
              (dictGet?_chunk_ne c7 (by decide))
          · rw [hd] at hv; exact absurd hv (by simp)
        · intro v hd
          rcases int_kwarg_shape h2 with ⟨hn, rfl⟩ | ⟨v2, n, hv2, hc, rfl⟩
          · rw [hd] at hn; exact absurd hn (by simp)
          · rw [hd] at hv2
            obtain rfl := Option.some.inj hv2
            exact ⟨n, hc, dictGet?_chain7_pos2
              (dictGet?_chunk_ne c1 (by decide)) (dictGet?_single_self _ _)⟩
      · constructor
        · intro hd
          rcases int_kwarg_shape h3 with ⟨-, rfl⟩ | ⟨v, n, hv, -, -⟩
          · exact dictGet?_chain7_none (dictGet?_chunk_ne c1 (by decide))
              (dictGet?_chunk_ne c2 (by decide)) rfl
              (dictGet?_chunk_ne c4 (by decide)) (dictGet?_chunk_ne c5 (by decide))
              (dictGet?_chunk_ne c6 (by decide)) (dictGet?_chunk_ne c7 (by decide))
          · rw [hd] at hv; exact absurd hv (by simp)
        · intro v hd
          rcases int_kwarg_shape h3 with ⟨hn, rfl⟩ | ⟨v2, n, hv2, hc, rfl⟩
          · rw [hd] at hn; exact absurd hn (by simp)
          · rw [hd] at hv2
            obtain rfl := Option.some.inj hv2
            exact ⟨n, hc, dictGet?_chain7_pos3
              (dictGet?_chunk_ne c1 (by decide)) (dictGet?_chunk_ne c2 (by decide))
              (dictGet?_single_self _ _)⟩
    · intro hd
      rcases options_kwarg_shape h4 with ⟨-, rfl⟩ | ⟨fs, hv, -⟩
      · exact dictGet?_chain7_none (dictGet?_chunk_ne c1 (by decide))
          (dictGet?_chunk_ne c2 (by decide)) (dictGet?_chunk_ne c3 (by decide))
          rfl (dictGet?_chunk_ne c5 (by decide)) (dictGet?_chunk_ne c6 (by decide))
          (dictGet?_chunk_ne c7 (by decide))
      · rw [hd] at hv; exact absurd hv (fun h => Json.noConfusion h)
    · intro fs hd
      rcases options_kwarg_shape h4 with ⟨hnull, rfl⟩ | ⟨fs2, hv, rfl⟩
      · rw [hd] at hnull; exact absurd hnull (fun h => Json.noConfusion h)
      · rw [hd] at hv
        cases hv
        exact dictGet?_chain7_pos4 (dictGet?_chunk_ne c1 (by decide))
          (dictGet?_chunk_ne c2 (by decide)) (dictGet?_chunk_ne c3 (by decide))
          (dictGet?_single_self _ _)
    · intro v hd hvn
      have hdg : dictGet payload "cookies" = v := dictGet_of_some hd
      rcases cookies_kwarg_shape h5 with ⟨hnull, rfl⟩ | ⟨s, hv, rfl⟩ | ⟨fs, hv, rfl⟩
      · rw [hdg] at hnull; exact absurd hnull hvn
      · rw [hdg] at hv
        subst hv
        exact ⟨.inl ⟨s, rfl⟩, dictGet?_chain7_pos5
          (dictGet?_chunk_ne c1 (by decide)) (dictGet?_chunk_ne c2 (by decide))
          (dictGet?_chunk_ne c3 (by decide)) (dictGet?_chunk_ne c4 (by decide))
          (dictGet?_single_self _ _)⟩
      · rw [hdg] at hv
        subst hv
        exact ⟨.inr ⟨fs, rfl⟩, dictGet?_chain7_pos5
          (dictGet?_chunk_ne c1 (by decide)) (dictGet?_chunk_ne c2 (by decide))
          (dictGet?_chunk_ne c3 (by decide)) (dictGet?_chunk_ne c4 (by decide))
          (dictGet?_single_self _ _)⟩
    · intro key hkey
      rcases hkey with rfl | rfl
      · constructor
        · intro hd
          have hb : bool_kwarg payload "extra_info" = [] := by
            unfold bool_kwarg; rw [hd]
          rw [hb]
          exact dictGet?_chain7_none (dictGet?_chunk_ne c1 (by decide))
            (dictGet?_chunk_ne c2 (by decide)) (dictGet?_chunk_ne c3 (by decide))
            (dictGet?_chunk_ne c4 (by decide)) (dictGet?_chunk_ne c5 (by decide))
            rfl (dictGet?_chunk_ne c7 (by decide))
        · intro v hd
          have hb : bool_kwarg payload "extra_info"
              = [("extra_info", Json.bool (pyTruthy v))] := by
            unfold bool_kwarg; rw [hd]
          rw [hb]
          exact dictGet?_chain7_pos6 (dictGet?_chunk_ne c1 (by decide))
            (dictGet?_chunk_ne c2 (by decide)) (dictGet?_chunk_ne c3 (by decide))
            (dictGet?_chunk_ne c4 (by decide)) (dictGet?_chunk_ne c5 (by decide))
            (dictGet?_single_self _ _)
      · constructor
        · intro hd
          have hb : bool_kwarg payload "youtube_dl" = [] := by
            unfold bool_kwarg; rw [hd]
          rw [hb]
          exact dictGet?_chain7_none (dictGet?_chunk_ne c1 (by decide))
            (dictGet?_chunk_ne c2 (by decide)) (dictGet?_chunk_ne c3 (by decide))
            (dictGet?_chunk_ne c4 (by decide)) (dictGet?_chunk_ne c5 (by decide))
            (dictGet?_chunk_ne c6 (by decide)) rfl
        · intro v hd
          have hb : bool_kwarg payload "youtube_dl"
              = [("youtube_dl", Json.bool (pyTruthy v))] := by
            unfold bool_kwarg; rw [hd]
          rw [hb]
          exact dictGet?_chain7_pos7 (dictGet?_chunk_ne c1 (by decide))
            (dictGet?_chunk_ne c2 (by decide)) (dictGet?_chunk_ne c3 (by decide))
            (dictGet?_chunk_ne c4 (by decide)) (dictGet?_chunk_ne c5 (by decide))
            (dictGet?_chunk_ne c6 (by decide)) (dictGet?_single_self _ _)
    · intro k hd
      exact dictGet?_chain7_none
        (chunk_lookup_absent c1 p1 hd) (chunk_lookup_absent c2 p2 hd)
        (chunk_lookup_absent c3 p3 hd) (chunk_lookup_absent c4 p4 hd)
        (chunk_lookup_absent c5 p5 hd) (chunk_lookup_absent c6 p6 hd)
        (chunk_lookup_absent c7 p7 hd)
  · rintro ⟨a, b, c, ha, hb, hc⟩ hnn hno
    have hoe := options_kwarg_bad hnn hno
    unfold extract_request_kwargs
    simp only [ha, hb, hc, hoe]
  · rintro ⟨a, b, c, ha, hb, hc⟩ hopt hnn hns hno
    obtain ⟨d, hdopt⟩ := hopt
    have hce := cookies_kwarg_bad hnn hns hno
    unfold extract_request_kwargs
    simp only [ha, hb, hc, hdopt, hce]

/-- Witness for C7: a request with `pages: 2` and `extra_info: "yes"`
produces kwargs with `pages` coerced to 2 and `extra_info` truthy,
while the absent `timeout` stays absent. -/
theorem claim_C7_witness :
    (∃ n, coerce_int (Json.int 2) "pages" 1 none = .ok n
      ∧ dictGet? [("pages", Json.int 2), ("extra_info", Json.bool true)] "pages"
          = some (Json.int n))
    ∧ dictGet? [("pages", Json.int 2), ("extra_info", Json.bool true)] "timeout"
        = none := by
  have h := (claim_C7 [("pages", Json.int 2), ("extra_info", Json.str "yes")]
    [("pages", Json.int 2), ("extra_info", Json.bool true)]).1 (by rfl)
  exact ⟨(h.1 "pages" (Or.inl rfl)).2 (Json.int 2) (by rfl),
    (h.1 "timeout" (Or.inr (Or.inr rfl))).1 (by rfl)⟩

/-! ### Lemmas about the router -/

theorem handle_posts_is_json_response (cap : Capability) (ct : Option String)
    (body : Body) :
    ∃ s p, handle_posts cap ct body = json_response s p := by
  unfold handle_posts
  split
  · exact ⟨_, _, rfl⟩
  · split
    · exact ⟨_, _, rfl⟩
    · exact ⟨_, _, rfl⟩
    · exact ⟨_, _, rfl⟩
    · exact ⟨_, _, rfl⟩

theorem app_not_found {cap : Capability} {req : HttpRequest}
    (h : (normalized_method req, normalized_path req) ∉ route_table) :
    app cap req = json_response 404 (Json.obj [("detail", Json.str "Not Found")]) := by
  have hne : ∀ a b : String, (a, b) ∈ route_table →
      ¬ ((normalized_method req, normalized_path req) = (a, b)) :=
    fun a b hmem heq => h (heq ▸ hmem)
  have hx : ∀ a b : String,
      ¬ ((normalized_method req, normalized_path req) = (a, b)) →
      ¬ ((normalized_method req == a && normalized_path req == b) = true) := by
    intro a b hneq hc
    rw [Bool.and_eq_true, beq_iff_eq, beq_iff_eq] at hc
    exact hneq (by rw [hc.1, hc.2])
  unfold app
  rw [if_neg (hx "OPTIONS" "/posts" (hne _ _ (by decide))),
    if_neg (hx "GET" "/" (hne _ _ (by decide))),
    if_neg (hx "GET" "/health" (hne _ _ (by decide))),
    if_neg (hx "GET" "/openapi.json" (hne _ _ (by decide))),
    if_neg (hx "GET" "/docs" (hne _ _ (by decide))),
    if_neg (hx "POST" "/posts" (hne _ _ (by decide)))]

/-- Claim C8: every JSON response the router emits carries
`Content-Type: application/json; charset=utf-8`, a Content-Length
equal to the byte length of the serialized body, and the three fixed
CORS headers; and every response of `app` is either the OPTIONS
response, the `/docs` HTML response, or such a JSON response. -/
theorem claim_C8 (cap : Capability) (req : HttpRequest) (status : Nat)
    (payload : Json) :
    (("Content-Type", "application/json; charset=utf-8")
        ∈ (json_response status payload).headers
      ∧ ("Content-Length", toString (json_response status payload).body.utf8ByteSize)
          ∈ (json_response status payload).headers
      ∧ ("Access-Control-Allow-Origin", "*") ∈ (json_response status payload).headers
      ∧ ("Access-Control-Allow-Methods", "GET,POST,OPTIONS")
          ∈ (json_response status payload).headers
      ∧ ("Access-Control-Allow-Headers", "Content-Type")
          ∈ (json_response status payload).headers)
    ∧ (app cap req = options_response
        ∨ app cap req = html_response SWAGGER_HTML
        ∨ ∃ s p, app cap req = json_response s p) := by
  constructor
  · refine ⟨?_, ?_, ?_, ?_, ?_⟩ <;> simp [json_response, CORS_HEADERS]
  · unfold app
    split
    · exact Or.inl rfl
    · split
      · exact Or.inr (Or.inr ⟨_, _, rfl⟩)
      · split
        · exact Or.inr (Or.inr ⟨_, _, rfl⟩)
        · split
          · exact Or.inr (Or.inr ⟨_, _, rfl⟩)
          · split
            · exact Or.inr (Or.inl rfl)
            · split
              · exact Or.inr (Or.inr
                  (handle_posts_is_json_response cap req.content_type req.body))
              · exact Or.inr (Or.inr ⟨_, _, rfl⟩)

/-- Claim C9: `OPTIONS /posts` answers 204 with an empty body and the
CORS headers only, and every (method, path) pair outside the dispatch
table answers 404 with `{"detail": "Not Found"}`. -/
theorem claim_C9 (cap : Capability) (ct : Option String) (body : Body)
    (req : HttpRequest) :
    (app cap ⟨some "OPTIONS", some "/posts", ct, body⟩ = options_response
      ∧ options_response.status = 204
      ∧ options_response.body = ""
      ∧ options_response.headers = CORS_HEADERS)
    ∧ ((normalized_method req, normalized_path req) ∉ route_table →
        app cap req
          = json_response 404 (Json.obj [("detail", Json.str "Not Found")])) := by
  exact ⟨⟨rfl, rfl, rfl, rfl⟩, fun h => app_not_found h⟩

/-- Witness for C9: `DELETE /nope` is not routed and yields the 404
body. -/
theorem claim_C9_witness :
    app (fun _ _ _ => CapOutcome.yields [])
      ⟨some "DELETE", some "/nope", none, Body.empty⟩
      = json_response 404 (Json.obj [("detail", Json.str "Not Found")]) :=
  (claim_C9 (fun _ _ _ => CapOutcome.yields []) none Body.empty
    ⟨some "DELETE", some "/nope", none, Body.empty⟩).2 (by decide)

/-- Claim C10: the presence test excludes only null, `""` and `[]`, so
other falsy JSON values such as `0` or `false` count as the one
present target; resolution succeeds and the value reaches the external
capability unchanged. -/
theorem claim_C10 (cap : Capability) (seq : List Json)
    (hcap : cap "account" (Json.int 0) [] = .yields seq) :
    present (Json.int 0) = true
    ∧ present (Json.bool false) = true
    ∧ extract_target [("account", Json.int 0)] = .ok ("account", Json.int 0)
    ∧ extract_target [("account", Json.bool false)]
        = .ok ("account", Json.bool false)
    ∧ collect_posts cap [("account", Json.int 0)]
        = .ok (collect_from seq DEFAULT_LIMIT) :=
  ⟨rfl, rfl, rfl, rfl, collect_posts_yields (by rfl) (by rfl) (by rfl) hcap⟩

/-- Witness for C10: a capability seeing exactly the target value `0`
under `account` is invoked and its posts are returned. -/
theorem claim_C10_witness :
    collect_posts (fun _ _ _ => CapOutcome.yields [Json.str "p"])
      [("account", Json.int 0)]
      = .ok (collect_from [Json.str "p"] DEFAULT_LIMIT) :=
  (claim_C10 (fun _ _ _ => CapOutcome.yields [Json.str "p"]) [Json.str "p"]
    rfl).2.2.2.2
